import Mathlib

/-!
Verification of the multi-backend database registry
(src/services/backendRegistry.ts, src/config/backends.ts) and the mock
database fallback (src/config/mockDatabase.ts) of the employee-management
backend.

The TypeScript code is shallowly embedded: enums become inductives, the
registry object becomes an explicit record threaded through pure state
transformers, timers and drivers become explicit parameters, and the
recursive retry logic of BackendRegistry.query becomes a fuel-indexed
function producing an event trace of driver attempts and backoff delays.
-/

namespace BackendReg

/-- BackendType from src/config/backends.ts (POSTGRES and FALLBACK are the
REAL store kinds; MOCK is the degraded in-memory stub). -/
inductive BackendType where
  | POSTGRES
  | MOCK
  | FALLBACK
deriving DecidableEq, Repr

/-- BackendStatus from src/config/backends.ts. -/
inductive BackendStatus where
  | ONLINE
  | OFFLINE
  | DEGRADED
  | UNKNOWN
deriving DecidableEq, Repr

/-- SelectionStrategy from src/config/backends.ts; FAILOVER is the source
name of the sticky-failover strategy. -/
inductive SelectionStrategy where
  | PRIORITY
  | ROUND_ROBIN
  | FAILOVER
deriving DecidableEq, Repr

/-- BackendConfig from src/config/backends.ts.  The optional
connectionString is modelled by the flag hasConnectionString; the Date
fields lastChecked (observability only) are dropped, and the two
millisecond settings are kept as plain naturals. -/
structure BackendConfig where
  id : String
  name : String
  type : BackendType
  hasConnectionString : Bool
  priority : Nat
  status : BackendStatus
  failureCount : Nat
  maxFailures : Nat
  recoveryThreshold : Nat
  successCount : Nat
  healthCheckInterval : Nat
  timeout : Nat
  enabled : Bool
deriving DecidableEq, Repr

/-- BackendInstance from src/services/backendRegistry.ts: a config plus the
live pool handle (modelled by the flag hasPool) and the lastUsed
timestamp (modelled as a natural-number clock value). -/
structure BackendInstance where
  config : BackendConfig
  hasPool : Bool
  lastUsed : Nat
deriving DecidableEq, Repr

/-- The mutable fields of the BackendRegistry class.  The backends Map is
an insertion-ordered association of instances keyed by config.id;
mockFallbackAllowed models DISABLE_MOCK_FALLBACK not being the string
true, and configured models the module-level configuredBackends list. -/
structure Registry where
  backends : List BackendInstance
  currentBackendId : Option String
  strategy : SelectionStrategy
  roundRobinIndex : Nat
  healthCheckRunning : Bool
  mockFallbackAllowed : Bool
  configured : List BackendConfig
deriving DecidableEq, Repr

/-- this.backends.get(id): the entry whose config.id matches (a JS Map has
at most one entry per key; on a list we take the first match). -/
def getBackend (s : Registry) (id : String) : Option BackendInstance :=
  s.backends.find? (fun b => b.config.id == id)

/-- Point update of the entry keyed by id, as performed by mutating the
instance object obtained from this.backends.get(id). -/
def updateBackend (s : Registry) (id : String) (f : BackendInstance → BackendInstance) :
    Registry :=
  { s with backends := s.backends.map (fun b => if b.config.id == id then f b else b) }

/-- updateBackendStatus (backendRegistry.ts lines 278-289). -/
def updateBackendStatus (id : String) (st : BackendStatus) (s : Registry) : Registry :=
  updateBackend s id (fun b => { b with config := { b.config with status := st } })

/-- The backend.lastUsed = new Date() updates scattered through the class. -/
def markUsed (now : Nat) (id : String) (s : Registry) : Registry :=
  updateBackend s id (fun b => { b with lastUsed := now })

/-- Whether an instance is the primary Neon PostgreSQL backend, the filter
used twice inside selectByPriority (lines 393-394 and 411-412). -/
def isPrimaryPg (b : BackendInstance) : Bool :=
  b.config.id == "primary" && b.config.type == BackendType.POSTGRES

/-- Stable insertion sort by ascending config.priority, the meaning of
xs.sort((a, b) => a.config.priority - b.config.priority) under the
stable Array.prototype.sort of the JS runtime. -/
def insertByPriority (b : BackendInstance) : List BackendInstance → List BackendInstance
  | [] => [b]
  | c :: rest =>
    if c.config.priority < b.config.priority then c :: insertByPriority b rest
    else b :: c :: rest

/-- Full stable sort by priority. -/
def sortByPriority : List BackendInstance → List BackendInstance
  | [] => []
  | b :: rest => insertByPriority b (sortByPriority rest)

/-- xs.sort(byPriority)[0] as an Option: the head of the stable sort. -/
def sortHead (l : List BackendInstance) : Option BackendInstance :=
  (sortByPriority l).head?

/-- selectByPriority (backendRegistry.ts lines 376-461).  The candidates
are partitioned by status; an ONLINE primary PostgreSQL backend is tried
first, then any ONLINE backend by priority, then a DEGRADED primary, then
any DEGRADED, then any UNKNOWN; if still nothing and the mock fallback is
allowed, the first MOCK-typed candidate; finally an OFFLINE backend by
priority as a last resort. -/
def selectByPriority (backends : List BackendInstance) (mockAllowed : Bool) :
    Option BackendInstance :=
  let onlineBackends := backends.filter (fun b => b.config.status == BackendStatus.ONLINE)
  let degradedBackends := backends.filter (fun b => b.config.status == BackendStatus.DEGRADED)
  let unknownBackends := backends.filter (fun b => b.config.status == BackendStatus.UNKNOWN)
  let offlineBackends := backends.filter (fun b => b.config.status == BackendStatus.OFFLINE)
  match sortHead (onlineBackends.filter isPrimaryPg) with
  | some c => some c
  | none =>
  match sortHead onlineBackends with
  | some c => some c
  | none =>
  match sortHead (degradedBackends.filter isPrimaryPg) with
  | some c => some c
  | none =>
  match sortHead degradedBackends with
  | some c => some c
  | none =>
  match sortHead unknownBackends with
  | some c => some c
  | none =>
  match (if mockAllowed then
          (backends.filter (fun b => b.config.type == BackendType.MOCK)).head?
         else none) with
  | some c => some c
  | none => sortHead offlineBackends

/-- selectByRoundRobin (backendRegistry.ts lines 464-495): filter to ONLINE
backends; if none, fall back to priority selection leaving the cursor
untouched; otherwise advance the cursor modulo the priority-sorted list
and return the entry at the new cursor. -/
def selectByRoundRobin (backends : List BackendInstance) (cursor : Nat)
    (mockAllowed : Bool) : Option BackendInstance × Nat :=
  let onlineBackends := backends.filter (fun b => b.config.status == BackendStatus.ONLINE)
  if onlineBackends.isEmpty then
    (selectByPriority backends mockAllowed, cursor)
  else
    let sorted := sortByPriority onlineBackends
    let idx := (cursor + 1) % sorted.length
    (sorted[idx]?, idx)

/-- selectBackend (backendRegistry.ts lines 292-373): filter to enabled
backends, dispatch on the strategy (FAILOVER keeps an enabled ONLINE or
DEGRADED current backend), fall back to the configured mock when the
strategy produced nothing, and commit the choice into currentBackendId
and the chosen backend's lastUsed. -/
def selectBackend (now : Nat) (s : Registry) : Option String × Registry :=
  let enabledBackends := s.backends.filter (fun b => b.config.enabled)
  if enabledBackends.isEmpty then (none, s)
  else
    let pickedWithCursor : Option BackendInstance × Nat :=
      match s.strategy with
      | SelectionStrategy.PRIORITY =>
        (selectByPriority enabledBackends s.mockFallbackAllowed, s.roundRobinIndex)
      | SelectionStrategy.ROUND_ROBIN =>
        selectByRoundRobin enabledBackends s.roundRobinIndex s.mockFallbackAllowed
      | SelectionStrategy.FAILOVER =>
        match s.currentBackendId with
        | some cid =>
          match getBackend s cid with
          | some cur =>
            if cur.config.enabled &&
               (cur.config.status == BackendStatus.ONLINE ||
                cur.config.status == BackendStatus.DEGRADED) then
              (some cur, s.roundRobinIndex)
            else
              (selectByPriority enabledBackends s.mockFallbackAllowed, s.roundRobinIndex)
          | none =>
            (selectByPriority enabledBackends s.mockFallbackAllowed, s.roundRobinIndex)
        | none =>
          (selectByPriority enabledBackends s.mockFallbackAllowed, s.roundRobinIndex)
    let picked :=
      match pickedWithCursor.1 with
      | some b => some b
      | none =>
        if s.mockFallbackAllowed then
          match s.configured.find? (fun (c : BackendConfig) => c.type == BackendType.MOCK) with
          | some mc => getBackend s mc.id
          | none => none
        else none
    let s1 := { s with roundRobinIndex := pickedWithCursor.2 }
    match picked with
    | some b =>
      let s2 := { s1 with currentBackendId := some b.config.id }
      (some b.config.id, markUsed now b.config.id s2)
    | none => (none, s1)

/-- handleHealthCheckFailure (backendRegistry.ts lines 251-275): increment
the failure counter, reset the success counter; on reaching maxFailures
from a non-OFFLINE status go OFFLINE, and if the failed backend was the
current one immediately re-run selection; a failure below the threshold
degrades a previously ONLINE backend. -/
def handleHealthCheckFailure (now : Nat) (id : String) (s : Registry) : Registry :=
  match getBackend s id with
  | none => s
  | some b =>
    let fc := b.config.failureCount + 1
    let s1 := updateBackend s id (fun x =>
      { x with config := { x.config with failureCount := fc, successCount := 0 } })
    if b.config.maxFailures ≤ fc && b.config.status != BackendStatus.OFFLINE then
      let s2 := updateBackendStatus id BackendStatus.OFFLINE s1
      if s2.currentBackendId == some id then (selectBackend now s2).2 else s2
    else if b.config.status == BackendStatus.ONLINE then
      updateBackendStatus id BackendStatus.DEGRADED s1
    else s1

/-- The healthy branch of checkBackendHealth (backendRegistry.ts lines
196-209): increment the success counter, reset the failure counter, and
mark ONLINE once the recovery threshold is reached from a non-ONLINE
status. -/
def healthCheckSuccess (id : String) (s : Registry) : Registry :=
  match getBackend s id with
  | none => s
  | some b =>
    let sc := b.config.successCount + 1
    let s1 := updateBackend s id (fun x =>
      { x with config := { x.config with successCount := sc, failureCount := 0 } })
    if b.config.recoveryThreshold ≤ sc && b.config.status != BackendStatus.ONLINE then
      updateBackendStatus id BackendStatus.ONLINE s1
    else s1

/-- checkBackendHealth (backendRegistry.ts lines 130-248) with the probe
round-trip abstracted to the boolean healthy.  A MOCK backend is set
ONLINE and reported healthy without probing; when another health check is
in flight the call reports the current status without mutating anything;
otherwise a POSTGRES backend with a pool and a healthy probe takes the
success path, and anything else (probe failure, missing pool,
FALLBACK type) takes the failure path.  The healthCheckRunning guard is
set and then cleared in the finally block, so it is unchanged across the
call. -/
def checkBackendHealth (now : Nat) (id : String) (healthy : Bool) (s : Registry) :
    Bool × Registry :=
  match getBackend s id with
  | none => (false, s)
  | some b =>
    if b.config.type == BackendType.MOCK then
      (true, updateBackendStatus id BackendStatus.ONLINE s)
    else if s.healthCheckRunning then
      (b.config.status == BackendStatus.ONLINE, s)
    else if b.config.type == BackendType.POSTGRES && b.hasPool && healthy then
      (true, healthCheckSuccess id s)
    else
      (false, handleHealthCheckFailure now id s)

/-- switchBackend (backendRegistry.ts lines 841-865): reject an unknown or
disabled backend; run an immediate health check and reject a non-MOCK
backend whose check failed; otherwise commit currentBackendId and
lastUsed. -/
def switchBackend (now : Nat) (id : String) (probeHealthy : Bool) (s : Registry) :
    Bool × Registry :=
  match getBackend s id with
  | none => (false, s)
  | some b =>
    if !b.config.enabled then (false, s)
    else
      let checked := checkBackendHealth now id probeHealthy s
      if !checked.1 && b.config.type != BackendType.MOCK then (false, checked.2)
      else
        (true, markUsed now id { checked.2 with currentBackendId := some id })

/-- setBackendEnabled (backendRegistry.ts lines 877-894). -/
def setBackendEnabled (now : Nat) (id : String) (enabled : Bool) (s : Registry) :
    Bool × Registry :=
  match getBackend s id with
  | none => (false, s)
  | some _ =>
    let s1 := updateBackend s id (fun x =>
      { x with config := { x.config with enabled := enabled } })
    if !enabled && s1.currentBackendId == some id then (true, (selectBackend now s1).2)
    else (true, s1)

/-- setSelectionStrategy (backendRegistry.ts lines 868-874). -/
def setSelectionStrategy (now : Nat) (strategy : SelectionStrategy) (s : Registry) :
    Registry :=
  (selectBackend now { s with strategy := strategy }).2

/-! ## The query path -/

/-- MAX_RETRIES inside query (backendRegistry.ts line 499). -/
def MAX_RETRIES : Nat := 3

/-- RETRY_DELAY_MS inside query (backendRegistry.ts line 500). -/
def RETRY_DELAY_MS : Nat := 500

/-- Outcome of one driver call (backend.pool.query), with
isTransientError's classification of a thrown error abstracted to the
transient flag. -/
inductive DriverOutcome where
  | ok (result : Nat)
  | fail (transient : Bool)
deriving DecidableEq, Repr

/-- The errors query can surface, one constructor per distinct throw site
in backendRegistry.ts lines 498-604 (plus fuel exhaustion of the model,
which the claims never reach). -/
inductive DbError where
  | noBackendAvailable
  | backendNotFound (id : String)
  | queryFailed (retries : Nat)
  | outOfFuel
deriving DecidableEq, Repr

/-- Observable events of one query call: a driver attempt against a
backend, or an exponential-backoff wait. -/
inductive QueryEvent where
  | attempt (id : String)
  | delay (ms : Nat)
deriving DecidableEq, Repr

/-- The abstract result returned when the mock database serves the query. -/
def mockResult : Nat := 0

instance {ε α : Type} [DecidableEq ε] [DecidableEq α] : DecidableEq (Except ε α) :=
  fun a b =>
    match a, b with
    | Except.ok x, Except.ok y =>
      if h : x = y then Decidable.isTrue (by rw [h])
      else Decidable.isFalse (by simp [h])
    | Except.error x, Except.error y =>
      if h : x = y then Decidable.isTrue (by rw [h])
      else Decidable.isFalse (by simp [h])
    | Except.ok _, Except.error _ => Decidable.isFalse (by simp)
    | Except.error _, Except.ok _ => Decidable.isFalse (by simp)

/-- Result, final registry state and event trace of one query call. -/
structure QueryOut where
  result : Except DbError Nat
  state : Registry
  trace : List QueryEvent
deriving DecidableEq, Repr

/-- query (backendRegistry.ts lines 498-604), fuel-indexed because the
source retries through recursive self-calls.  The driver is a function of
the backend id and a running call counter so its outcome may differ
between attempts.  The try block updates lastUsed and runs the driver
(the mock backend answers directly); the catch block marks the backend
DEGRADED (the out-of-band health probe it triggers is asynchronous and
not part of this call), retries on the same backend with exponential
backoff while the error is transient and retries remain, then re-selects
and retries once on a different backend with the retry budget reset, then
falls back to an enabled configured mock, and finally surfaces the
failure. -/
def queryModel (driver : String → Nat → DriverOutcome) (now : Nat) :
    Nat → Nat → Nat → Registry → QueryOut
  | 0, _, _, s => ⟨Except.error DbError.outOfFuel, s, []⟩
  | fuel + 1, retryCount, calls, s0 =>
    let s := if s0.currentBackendId.isNone then (selectBackend now s0).2 else s0
    match s.currentBackendId with
    | none => ⟨Except.error DbError.noBackendAvailable, s, []⟩
    | some cid =>
      match getBackend s cid with
      | none => ⟨Except.error (DbError.backendNotFound cid), s, []⟩
      | some backend =>
        let s1 := markUsed now cid s
        let outcome : DriverOutcome :=
          if backend.config.type == BackendType.POSTGRES && backend.hasPool then
            driver cid calls
          else if backend.config.type == BackendType.MOCK then
            DriverOutcome.ok mockResult
          else
            DriverOutcome.fail false
        match outcome with
        | DriverOutcome.ok r => ⟨Except.ok r, s1, [QueryEvent.attempt cid]⟩
        | DriverOutcome.fail transient =>
          let s2 := updateBackendStatus cid BackendStatus.DEGRADED s1
          if transient && retryCount < MAX_RETRIES then
            let d := RETRY_DELAY_MS * 2 ^ retryCount
            let q := queryModel driver now fuel (retryCount + 1) (calls + 1) s2
            ⟨q.result, q.state, QueryEvent.attempt cid :: QueryEvent.delay d :: q.trace⟩
          else
            let sel := selectBackend now s2
            match sel.1 with
            | some nid =>
              if nid != cid then
                let q := queryModel driver now fuel 0 (calls + 1) sel.2
                ⟨q.result, q.state, QueryEvent.attempt cid :: q.trace⟩
              else
                queryMockFallback backend cid retryCount sel.2
            | none => queryMockFallback backend cid retryCount sel.2
where
  /-- Lines 585-595: after retries and re-selection are exhausted, a
  non-mock backend may hand the query to an enabled configured mock. -/
  queryMockFallback (backend : BackendInstance) (cid : String) (retryCount : Nat)
      (s : Registry) : QueryOut :=
    if backend.config.type != BackendType.MOCK && s.mockFallbackAllowed then
      match s.configured.find? (fun (c : BackendConfig) => c.type == BackendType.MOCK) with
      | some mc =>
        match getBackend s mc.id with
        | some mb =>
          if mb.config.enabled then
            ⟨Except.ok mockResult, { s with currentBackendId := some mc.id },
             [QueryEvent.attempt cid, QueryEvent.attempt mc.id]⟩
          else ⟨Except.error (DbError.queryFailed retryCount), s, [QueryEvent.attempt cid]⟩
        | none => ⟨Except.error (DbError.queryFailed retryCount), s, [QueryEvent.attempt cid]⟩
      | none => ⟨Except.error (DbError.queryFailed retryCount), s, [QueryEvent.attempt cid]⟩
    else ⟨Except.error (DbError.queryFailed retryCount), s, [QueryEvent.attempt cid]⟩

/-! ## Static configuration -/

/-- defaultBackends (src/config/backends.ts lines 53-98).  The presence of
the NEON_DATABASE_URL and BACKUP_DATABASE_URL environment variables is
abstracted into the booleans primaryConn and backupConn (the backup
backend is enabled exactly when its URL is set), and mockEnabled stands
for DISABLE_MOCK_FALLBACK not being the string true. -/
def defaultBackends (primaryConn backupConn mockEnabled : Bool) : List BackendConfig :=
  [ { id := "primary", name := "Primary Neon PostgreSQL", type := BackendType.POSTGRES,
      hasConnectionString := primaryConn, priority := 1, status := BackendStatus.UNKNOWN,
      failureCount := 0, maxFailures := 3, recoveryThreshold := 2, successCount := 0,
      healthCheckInterval := 30000, timeout := 10000, enabled := true },
    { id := "backup", name := "Backup PostgreSQL", type := BackendType.POSTGRES,
      hasConnectionString := backupConn, priority := 2, status := BackendStatus.UNKNOWN,
      failureCount := 0, maxFailures := 3, recoveryThreshold := 2, successCount := 0,
      healthCheckInterval := 60000, timeout := 10000, enabled := backupConn },
    { id := "mock", name := "Mock Database", type := BackendType.MOCK,
      hasConnectionString := false, priority := 999, status := BackendStatus.ONLINE,
      failureCount := 0, maxFailures := 999, recoveryThreshold := 1, successCount := 999,
      healthCheckInterval := 300000, timeout := 1000, enabled := mockEnabled } ]

/-- initializeBackends (backendRegistry.ts lines 42-111): disabled configs
are skipped, each enabled POSTGRES config with a connection string gets a
pool, and an initial selection is committed at the end. -/
def initRegistry (cfgs : List BackendConfig) (strategy : SelectionStrategy)
    (mockAllowed : Bool) (now : Nat) : Registry :=
  let base : Registry :=
    { backends := (cfgs.filter (fun (c : BackendConfig) => c.enabled)).map
        (fun c => { config := c,
                    hasPool := c.type == BackendType.POSTGRES && c.hasConnectionString,
                    lastUsed := now }),
      currentBackendId := none, strategy := strategy, roundRobinIndex := 0,
      healthCheckRunning := false, mockFallbackAllowed := mockAllowed,
      configured := cfgs }
  (selectBackend now base).2

/-! ## The mock (degraded stub) database, src/config/mockDatabase.ts -/

/-- The employee rows of the mock store (Date-valued fields, which are
filled from the wall clock and carry no query-relevant information, are
dropped). -/
structure MockEmployee where
  id : String
  employee_id : String
  name : String
  trade : String
  nationality : String
  mobile_number : String
  email : String
  company_id : String
deriving DecidableEq, Repr

/-- The company rows of the mock store. -/
structure MockCompany where
  id : String
  name : String
  location : String
deriving DecidableEq, Repr

/-- The mutable in-memory tables behind the mock database (the sampleData
object; the documents table is unused by the claims and omitted). -/
structure MockState where
  employees : List MockEmployee
  companies : List MockCompany
deriving DecidableEq, Repr

/-- The seeded sampleData (mockDatabase.ts lines 52-150). -/
def sampleData : MockState :=
  { employees :=
      [ { id := "1", employee_id := "EMP001", name := "John Doe", trade := "Engineer",
          nationality := "USA", mobile_number := "+1234567890",
          email := "john.doe@example.com", company_id := "1" },
        { id := "2", employee_id := "EMP002", name := "Jane Smith",
          trade := "Project Manager", nationality := "UK",
          mobile_number := "+1234567891", email := "jane.smith@example.com",
          company_id := "1" },
        { id := "3", employee_id := "EMP003", name := "Ahmed Ali", trade := "Technician",
          nationality := "UAE", mobile_number := "+9715551234",
          email := "ahmed.ali@example.com", company_id := "2" } ],
    companies :=
      [ { id := "1", name := "Cub Technical Services", location := "Dubai, UAE" },
        { id := "2", name := "Cub Technical International", location := "Abu Dhabi, UAE" },
        { id := "3", name := "Cub Technical Maintenance", location := "Sharjah, UAE" } ] }

/-- The features that mockDatabase.ts extracts from a SELECT on employees
by substring and regex matching of the SQL text: a count(*) aggregate, a
where id = parameter, a where company_id = parameter, an ilike search
parameter (percent signs stripped and lowercased by the handler), plus
the limit and offset already resolved by getQueryLimit and getQueryOffset
(lines 864-881: the matched parameter or the defaults 20 and 0). -/
structure EmployeeSelect where
  hasCount : Bool
  byId : Option String
  byCompanyId : Option String
  search : Option String
  limit : Nat
  offset : Nat
deriving DecidableEq, Repr

/-- One row of a mock query result. -/
inductive MockRow where
  | count (n : Nat)
  | employee (e : MockEmployee)
  | company (c : MockCompany)
deriving DecidableEq, Repr

/-- The QueryResult shape the mock returns (oid and fields are the
constants 0 and empty). -/
structure MockQueryResult where
  rows : List MockRow
  command : String
  rowCount : Nat
deriving DecidableEq, Repr

/-- Substring test on character lists, the meaning of
String.prototype.includes. -/
def charsContain (hay needle : List Char) : Bool :=
  hay.tails.any (fun t => needle.isPrefixOf t)

/-- lowercased-substring test used by the ilike search branch. -/
def lowerContains (hay needle : String) : Bool :=
  charsContain hay.toLower.toList needle.toList

/-- handleEmployeeQuery (mockDatabase.ts lines 263-360): count(*) first,
then lookup by id, then filter by company_id with pagination, then the
ilike search over five text fields with pagination, else all employees
paginated.  Array.prototype.slice(offset, offset + limit) is drop
then take. -/
def handleEmployeeQuery (q : EmployeeSelect) (s : MockState) : MockQueryResult :=
  if q.hasCount then
    { rows := [MockRow.count s.employees.length], command := "SELECT", rowCount := 1 }
  else match q.byId with
  | some v =>
    match s.employees.find? (fun e => e.id == v) with
    | some e => { rows := [MockRow.employee e], command := "SELECT", rowCount := 1 }
    | none => { rows := [], command := "SELECT", rowCount := 0 }
  | none =>
  match q.byCompanyId with
  | some cid =>
    let employees := s.employees.filter (fun e => e.company_id == cid)
    let page := (employees.drop q.offset).take q.limit
    { rows := page.map MockRow.employee, command := "SELECT", rowCount := page.length }
  | none =>
  match q.search with
  | some term =>
    let employees := s.employees.filter (fun e =>
      lowerContains e.name term || lowerContains e.employee_id term ||
      lowerContains e.email term || lowerContains e.trade term ||
      lowerContains e.nationality term)
    let page := (employees.drop q.offset).take q.limit
    { rows := page.map MockRow.employee, command := "SELECT", rowCount := page.length }
  | none =>
    let page := (s.employees.drop q.offset).take q.limit
    { rows := page.map MockRow.employee, command := "SELECT", rowCount := page.length }

/-- handleCompanyQuery (mockDatabase.ts lines 363-403), same shape without
pagination. -/
structure CompanySelect where
  hasCount : Bool
  byId : Option String
deriving DecidableEq, Repr

def handleCompanyQuery (q : CompanySelect) (s : MockState) : MockQueryResult :=
  if q.hasCount then
    { rows := [MockRow.count s.companies.length], command := "SELECT", rowCount := 1 }
  else match q.byId with
  | some v =>
    match s.companies.find? (fun c => c.id == v) with
    | some c => { rows := [MockRow.company c], command := "SELECT", rowCount := 1 }
    | none => { rows := [], command := "SELECT", rowCount := 0 }
  | none =>
    { rows := s.companies.map MockRow.company, command := "SELECT",
      rowCount := s.companies.length }

/-- The operations mockDb.query dispatches to after inspecting the SQL
verb and table name (lines 153-224); the write operations are the ones
that mutate sampleData. -/
inductive MockOp where
  | selectEmployees (q : EmployeeSelect)
  | selectCompanies (q : CompanySelect)
  | insertEmployee (params : List (Option String))
  | deleteEmployee (id : String)
deriving DecidableEq, Repr

/-- Largest numeric id of the employee table, as computed by
Math.max over parseInt of the ids (line 469). -/
def maxEmployeeId (s : MockState) : Nat :=
  s.employees.foldl (fun acc e => max acc (e.id.toNat?.getD 0)) 0

/-- handleEmployeeInsert (mockDatabase.ts lines 467-499): a fresh id one
above the current maximum, field values from the positional parameters
with the source's defaults, appended to the table. -/
def handleEmployeeInsert (params : List (Option String)) (s : MockState) :
    MockQueryResult × MockState :=
  let newId := toString (maxEmployeeId s + 1)
  let get := fun (i : Nat) (d : String) => ((params.getD i none).getD d)
  let e : MockEmployee :=
    { id := newId,
      employee_id := get 0 ("EMP" ++ newId),
      name := get 1 "New Employee",
      trade := get 2 "Unknown",
      nationality := get 3 "Unknown",
      mobile_number := get 6 "",
      email := get 8 "employee@example.com",
      company_id := get 9 "1" }
  ({ rows := [MockRow.employee e], command := "INSERT", rowCount := 1 },
   { s with employees := s.employees ++ [e] })

/-- handleEmployeeDelete (mockDatabase.ts lines 741-779): remove the first
row with the given id, returning it. -/
def handleEmployeeDelete (id : String) (s : MockState) : MockQueryResult × MockState :=
  match s.employees.find? (fun e => e.id == id) with
  | some e =>
    ({ rows := [MockRow.employee e], command := "DELETE", rowCount := 1 },
     { s with employees := s.employees.eraseP (fun x => x.id == id) })
  | none => ({ rows := [], command := "DELETE", rowCount := 0 }, s)

/-- mockDb.query (mockDatabase.ts lines 153-224) over the dispatched
operations: reads leave the tables untouched, writes thread the new
state. -/
def mockDbQuery (op : MockOp) (s : MockState) : MockQueryResult × MockState :=
  match op with
  | MockOp.selectEmployees q => (handleEmployeeQuery q s, s)
  | MockOp.selectCompanies q => (handleCompanyQuery q s, s)
  | MockOp.insertEmployee params => handleEmployeeInsert params s
  | MockOp.deleteEmployee id => handleEmployeeDelete id s

/-- The read-all-employees operation: a SELECT on employees with no
count(*), no id or company filter and no search, paginated by the
defaults of getQueryLimit and getQueryOffset. -/
def readAllEmployees : MockOp :=
  MockOp.selectEmployees
    { hasCount := false, byId := none, byCompanyId := none, search := none,
      limit := 20, offset := 0 }

/-! ## Basic lemmas about the registry map -/

lemma getBackend_updateBackend (s : Registry) (id cid : String)
    (f : BackendInstance → BackendInstance)
    (hf : ∀ b, (f b).config.id = b.config.id) :
    getBackend (updateBackend s id f) cid =
      (getBackend s cid).map (fun b => if b.config.id == id then f b else b) := by
  unfold getBackend updateBackend
  rw [List.find?_map]
  have hpred : ((fun (b : BackendInstance) => b.config.id == cid) ∘
      (fun b => if b.config.id == id then f b else b)) =
      (fun (b : BackendInstance) => b.config.id == cid) := by
    funext b
    by_cases hb : b.config.id = id
    · simp [Function.comp, hb, hf b]
    · simp [Function.comp, hb]
  rw [hpred]

lemma getBackend_id_eq (s : Registry) (id : String) (b : BackendInstance)
    (hb : getBackend s id = some b) : b.config.id = id := by
  have hb' : s.backends.find? (fun x => x.config.id == id) = some b := hb
  have h2 := List.find?_some hb'
  exact eq_of_beq h2

lemma getBackend_updateBackend_self (s : Registry) (id : String)
    (f : BackendInstance → BackendInstance)
    (hf : ∀ b, (f b).config.id = b.config.id)
    (b : BackendInstance) (hb : getBackend s id = some b) :
    getBackend (updateBackend s id f) id = some (f b) := by
  rw [getBackend_updateBackend s id id f hf, hb]
  simp [getBackend_id_eq s id b hb]

lemma getBackend_updateBackend_other (s : Registry) (id cid : String)
    (f : BackendInstance → BackendInstance)
    (hf : ∀ b, (f b).config.id = b.config.id)
    (hne : cid ≠ id) :
    getBackend (updateBackend s id f) cid = getBackend s cid := by
  rw [getBackend_updateBackend s id cid f hf]
  cases hb : getBackend s cid with
  | none => rfl
  | some b =>
    have hid := getBackend_id_eq s cid b hb
    have hbid : b.config.id ≠ id := fun h => hne (hid ▸ h)
    simp [hbid]

lemma getBackend_markUsed_self (now : Nat) (id : String) (s : Registry)
    (b : BackendInstance) (hb : getBackend s id = some b) :
    getBackend (markUsed now id s) id = some { b with lastUsed := now } :=
  getBackend_updateBackend_self s id (fun x => { x with lastUsed := now })
    (fun _ => rfl) b hb

lemma getBackend_markUsed_other (now : Nat) (id cid : String) (s : Registry)
    (hne : cid ≠ id) :
    getBackend (markUsed now id s) cid = getBackend s cid :=
  getBackend_updateBackend_other s id cid (fun x => { x with lastUsed := now })
    (fun _ => rfl) hne

lemma getBackend_updateBackendStatus_self (id : String) (st : BackendStatus)
    (s : Registry) (b : BackendInstance) (hb : getBackend s id = some b) :
    getBackend (updateBackendStatus id st s) id =
      some { b with config := { b.config with status := st } } :=
  getBackend_updateBackend_self s id
    (fun x => { x with config := { x.config with status := st } }) (fun _ => rfl) b hb

lemma getBackend_updateBackendStatus_other (id : String) (st : BackendStatus)
    (s : Registry) (cid : String) (hne : cid ≠ id) :
    getBackend (updateBackendStatus id st s) cid = getBackend s cid :=
  getBackend_updateBackend_other s id cid
    (fun x => { x with config := { x.config with status := st } }) (fun _ => rfl) hne

@[simp] lemma updateBackend_currentBackendId (s : Registry) (id : String) (f) :
    (updateBackend s id f).currentBackendId = s.currentBackendId := rfl

@[simp] lemma updateBackend_strategy (s : Registry) (id : String) (f) :
    (updateBackend s id f).strategy = s.strategy := rfl

@[simp] lemma updateBackend_mockFallbackAllowed (s : Registry) (id : String) (f) :
    (updateBackend s id f).mockFallbackAllowed = s.mockFallbackAllowed := rfl

@[simp] lemma updateBackend_healthCheckRunning (s : Registry) (id : String) (f) :
    (updateBackend s id f).healthCheckRunning = s.healthCheckRunning := rfl

@[simp] lemma updateBackend_configured (s : Registry) (id : String) (f) :
    (updateBackend s id f).configured = s.configured := rfl

@[simp] lemma updateBackend_roundRobinIndex (s : Registry) (id : String) (f) :
    (updateBackend s id f).roundRobinIndex = s.roundRobinIndex := rfl

/-! ## Shared concrete fixtures -/

/-- A backend instance fixture with the default thresholds of
defaultBackends (maxFailures 3, recoveryThreshold 2). -/
def mkBackend (id : String) (ty : BackendType) (pr : Nat) (st : BackendStatus)
    (fc sc : Nat) (en : Bool) : BackendInstance :=
  let cfg : BackendConfig :=
    { id := id, name := id, type := ty, hasConnectionString := true,
      priority := pr, status := st, failureCount := fc, maxFailures := 3,
      recoveryThreshold := 2, successCount := sc, healthCheckInterval := 30000,
      timeout := 10000, enabled := en }
  { config := cfg, hasPool := ty == BackendType.POSTGRES, lastUsed := 0 }

/-- A registry that holds a single configured store and no mock fallback. -/
def singleStoreRegistry (b : BackendInstance) : Registry :=
  { backends := [b], currentBackendId := some b.config.id,
    strategy := SelectionStrategy.PRIORITY, roundRobinIndex := 0,
    healthCheckRunning := false, mockFallbackAllowed := false,
    configured := [b.config] }

/-! ## C4: no store available -/

lemma selectBackend_of_all_disabled (now : Nat) (s : Registry)
    (hdis : ∀ b ∈ s.backends, b.config.enabled = false) :
    selectBackend now s = (none, s) := by
  have hfil : s.backends.filter (fun b => b.config.enabled) = [] := by
    rw [List.filter_eq_nil_iff]
    intro b hb
    simp [hdis b hb]
  unfold selectBackend
  simp [hfil]

/-- C4: with every store disabled (the degraded stub included) and no store
previously selected, query surfaces the distinct no-store error
immediately: no driver attempt, no retry, no backoff delay, and the
registry state is untouched. -/
theorem queryAllDisabledNoStoreError (driver : String → Nat → DriverOutcome)
    (now fuel retryCount calls : Nat) (s : Registry)
    (hcur : s.currentBackendId = none)
    (hdis : ∀ b ∈ s.backends, b.config.enabled = false) :
    queryModel driver now (fuel + 1) retryCount calls s =
      ⟨Except.error DbError.noBackendAvailable, s, []⟩ := by
  have hsel := selectBackend_of_all_disabled now s hdis
  simp only [queryModel, hcur, Option.isNone_none, if_true, hsel, hcur]

/-- The all-disabled fixture for C4: both real stores and the mock stub
disabled, nothing selected. -/
def allDisabledRegistry : Registry :=
  { backends :=
      [ mkBackend "primary" BackendType.POSTGRES 1 BackendStatus.UNKNOWN 0 0 false,
        mkBackend "backup" BackendType.POSTGRES 2 BackendStatus.UNKNOWN 0 0 false,
        mkBackend "mock" BackendType.MOCK 999 BackendStatus.ONLINE 0 999 false ],
    currentBackendId := none, strategy := SelectionStrategy.PRIORITY,
    roundRobinIndex := 0, healthCheckRunning := false, mockFallbackAllowed := false,
    configured := (defaultBackends true false false) }

/-- Witness for C4 at the all-disabled fixture. -/
theorem queryAllDisabledNoStoreError_witness :
    queryModel (fun _ _ => DriverOutcome.fail true) 0 1 0 0 allDisabledRegistry =
      ⟨Except.error DbError.noBackendAvailable, allDisabledRegistry, []⟩ :=
  queryAllDisabledNoStoreError (fun _ _ => DriverOutcome.fail true) 0 0 0 0
    allDisabledRegistry rfl (by decide)

/-! ## C8: the success path of query -/

/-- The success-outcome recording that the spec's state machine (section
4.4) prescribes: the success counter is incremented and the failure
counter reset. -/
def recordsSuccessOutcome (before after : BackendConfig) : Prop :=
  after.successCount = before.successCount + 1 ∧ after.failureCount = 0

/-- C8 (amended): when the driver call succeeds, query updates the store's
lastUsed timestamp and returns the driver's result, but records no
success outcome: the store's counters and status are exactly as before
(success outcomes are recorded only by the health prober). -/
theorem querySuccessReturnsResult (driver : String → Nat → DriverOutcome)
    (now fuel retryCount calls : Nat) (s : Registry) (cid : String)
    (b : BackendInstance) (v : Nat)
    (hcur : s.currentBackendId = some cid)
    (hb : getBackend s cid = some b)
    (hty : b.config.type = BackendType.POSTGRES)
    (hpool : b.hasPool = true)
    (hdrv : driver cid calls = DriverOutcome.ok v) :
    queryModel driver now (fuel + 1) retryCount calls s =
      ⟨Except.ok v, markUsed now cid s, [QueryEvent.attempt cid]⟩ ∧
    getBackend (markUsed now cid s) cid = some { b with lastUsed := now } := by
  refine ⟨?_, getBackend_markUsed_self now cid s b hb⟩
  simp [queryModel, hcur, hb, hty, hpool, hdrv]

/-- The concrete fixture for C8: an ONLINE primary store with zero counters
whose driver returns successfully. -/
def successFixtureRegistry : Registry :=
  singleStoreRegistry (mkBackend "primary" BackendType.POSTGRES 1 BackendStatus.ONLINE 0 0 true)

/-- Witness for C8 (amended) at the concrete fixture. -/
theorem querySuccessReturnsResult_witness :
    queryModel (fun _ _ => DriverOutcome.ok 7) 5 1 0 0 successFixtureRegistry =
      ⟨Except.ok 7, markUsed 5 "primary" successFixtureRegistry, [QueryEvent.attempt "primary"]⟩ :=
  (querySuccessReturnsResult (fun _ _ => DriverOutcome.ok 7) 5 0 0 0
    successFixtureRegistry "primary"
    (mkBackend "primary" BackendType.POSTGRES 1 BackendStatus.ONLINE 0 0 true)
    7 rfl rfl rfl rfl rfl).1

/-- Counterexample to C8 as stated: after a successful query on the fixture
store, the store's configuration (counters and status included) is
unchanged, so no success outcome in the sense of the spec was recorded. -/
theorem querySuccessClaimCounterexample :
    (queryModel (fun _ _ => DriverOutcome.ok 7) 5 1 0 0 successFixtureRegistry).result
        = Except.ok 7 ∧
    (getBackend (queryModel (fun _ _ => DriverOutcome.ok 7) 5 1 0 0
        successFixtureRegistry).state "primary").map (fun x => x.config) =
      some (mkBackend "primary" BackendType.POSTGRES 1 BackendStatus.ONLINE 0 0 true).config ∧
    ¬ recordsSuccessOutcome
        (mkBackend "primary" BackendType.POSTGRES 1 BackendStatus.ONLINE 0 0 true).config
        (mkBackend "primary" BackendType.POSTGRES 1 BackendStatus.ONLINE 0 0 true).config := by
  refine ⟨by decide, by decide, ?_⟩
  intro h
  exact absurd h.1 (by decide)

/-! ## C2: what a failed query does to the store -/

/-- The failure handling that claim C2 ascribes to execute, following the
spec's state machine (section 4.4): increment the failure counter, reset
the success counter, go OFFLINE at the threshold, DEGRADED from ONLINE
below it, and keep OFFLINE absorbing. -/
def claimC2FailureTransition (before after : BackendConfig) : Prop :=
  after.failureCount = before.failureCount + 1 ∧ after.successCount = 0 ∧
  (if before.maxFailures ≤ before.failureCount + 1 then
    after.status = BackendStatus.OFFLINE
   else if before.status = BackendStatus.ONLINE then
    after.status = BackendStatus.DEGRADED
   else if before.status = BackendStatus.OFFLINE then
    after.status = BackendStatus.OFFLINE
   else after.status = before.status)

/-- C2 (amended): a failed query sets the failed store's status directly to
DEGRADED whatever its previous status, leaves both counters untouched,
and surfaces the failure; the section 4.4 counter updates and transitions
run only in the out-of-band health-check path. Stated on a registry with
one enabled primary store, no mock fallback, and a driver failing
non-transiently. -/
theorem queryFailureDegradesWithoutCounting (st : BackendStatus)
    (fc sc now fuel : Nat) (driver : String → Nat → DriverOutcome)
    (hdrv : ∀ k, driver "primary" k = DriverOutcome.fail false) :
    (queryModel driver now (fuel + 1) 0 0
        (singleStoreRegistry (mkBackend "primary" BackendType.POSTGRES 1 st fc sc true))).result
      = Except.error (DbError.queryFailed 0) ∧
    (getBackend (queryModel driver now (fuel + 1) 0 0
        (singleStoreRegistry (mkBackend "primary" BackendType.POSTGRES 1 st fc sc true))).state
        "primary").map
        (fun x => (x.config.status, x.config.failureCount, x.config.successCount)) =
      some (BackendStatus.DEGRADED, fc, sc) := by
  constructor <;>
    simp [queryModel, queryModel.queryMockFallback, singleStoreRegistry, mkBackend,
      getBackend, updateBackend, updateBackendStatus, markUsed, selectBackend,
      selectByPriority, selectByRoundRobin, sortHead, sortByPriority, insertByPriority,
      isPrimaryPg, hdrv, MAX_RETRIES]

/-- Witness for C2 (amended) at a store that is OFFLINE with five recorded
failures. -/
theorem queryFailureDegradesWithoutCounting_witness :
    (queryModel (fun _ _ => DriverOutcome.fail false) 3 1 0 0
        (singleStoreRegistry
          (mkBackend "primary" BackendType.POSTGRES 1 BackendStatus.OFFLINE 5 0 true))).result
      = Except.error (DbError.queryFailed 0) ∧
    (getBackend (queryModel (fun _ _ => DriverOutcome.fail false) 3 1 0 0
        (singleStoreRegistry
          (mkBackend "primary" BackendType.POSTGRES 1 BackendStatus.OFFLINE 5 0 true))).state
        "primary").map
        (fun x => (x.config.status, x.config.failureCount, x.config.successCount)) =
      some (BackendStatus.DEGRADED, 5, 0) :=
  queryFailureDegradesWithoutCounting BackendStatus.OFFLINE 5 0 3 0
    (fun _ _ => DriverOutcome.fail false) (fun _ => rfl)

/-- Counterexample to C2 as stated: a failed query on an OFFLINE store with
five recorded failures leaves the counter at five and moves the status to
DEGRADED, while the claimed section 4.4 rules demand an incremented
counter and that OFFLINE stays OFFLINE. -/
theorem queryFailureClaimCounterexample :
    (getBackend (queryModel (fun _ _ => DriverOutcome.fail false) 3 1 0 0
        (singleStoreRegistry
          (mkBackend "primary" BackendType.POSTGRES 1 BackendStatus.OFFLINE 5 0 true))).state
        "primary").map (fun x => x.config) =
      some { (mkBackend "primary" BackendType.POSTGRES 1 BackendStatus.OFFLINE 5 0 true).config
              with status := BackendStatus.DEGRADED } ∧
    ¬ claimC2FailureTransition
        (mkBackend "primary" BackendType.POSTGRES 1 BackendStatus.OFFLINE 5 0 true).config
        { (mkBackend "primary" BackendType.POSTGRES 1 BackendStatus.OFFLINE 5 0 true).config
            with status := BackendStatus.DEGRADED } := by
  constructor
  · decide
  · intro h
    exact absurd h.1 (by decide)

/-! ## C3: the per-leg retry and backoff budget -/

/-- Number of driver attempts against a given store in a trace. -/
def countAttempts (id : String) (tr : List QueryEvent) : Nat :=
  tr.countP (fun e => e == QueryEvent.attempt id)

/-- One transient-failure step of query: attempt, mark DEGRADED, wait
RETRY_DELAY_MS times 2 to the retryCount, recurse on the same store with
the retry counter bumped. -/
lemma queryModel_transient_step (driver : String → Nat → DriverOutcome)
    (now fuel retryCount calls : Nat) (s : Registry) (cid : String)
    (b : BackendInstance)
    (hcur : s.currentBackendId = some cid)
    (hb : getBackend s cid = some b)
    (hty : b.config.type = BackendType.POSTGRES)
    (hpool : b.hasPool = true)
    (hdrv : driver cid calls = DriverOutcome.fail true)
    (hr : retryCount < MAX_RETRIES) :
    queryModel driver now (fuel + 1) retryCount calls s =
      ⟨(queryModel driver now fuel (retryCount + 1) (calls + 1)
          (updateBackendStatus cid BackendStatus.DEGRADED (markUsed now cid s))).result,
       (queryModel driver now fuel (retryCount + 1) (calls + 1)
          (updateBackendStatus cid BackendStatus.DEGRADED (markUsed now cid s))).state,
       QueryEvent.attempt cid :: QueryEvent.delay (RETRY_DELAY_MS * 2 ^ retryCount) ::
         (queryModel driver now fuel (retryCount + 1) (calls + 1)
            (updateBackendStatus cid BackendStatus.DEGRADED (markUsed now cid s))).trace⟩ := by
  simp [queryModel, hcur, hb, hty, hpool, hdrv, hr]

/-- After a transient-failure step the failed store keeps its config apart
from the DEGRADED status and the refreshed lastUsed. -/
lemma getBackend_afterDegradedMark (now : Nat) (cid : String) (s : Registry)
    (b : BackendInstance) (hb : getBackend s cid = some b) :
    getBackend (updateBackendStatus cid BackendStatus.DEGRADED (markUsed now cid s)) cid =
      some { b with lastUsed := now,
                    config := { b.config with status := BackendStatus.DEGRADED } } := by
  have h1 := getBackend_markUsed_self now cid s b hb
  have h2 := getBackend_updateBackendStatus_self cid BackendStatus.DEGRADED
    (markUsed now cid s) _ h1
  exact h2

/-- In the non-retry case every branch of the catch block still begins its
trace with the failed attempt. -/
lemma queryModel_noretry_attempt (driver : String → Nat → DriverOutcome)
    (now fuel retryCount calls : Nat) (s : Registry) (cid : String)
    (b : BackendInstance)
    (hcur : s.currentBackendId = some cid)
    (hb : getBackend s cid = some b)
    (hty : b.config.type = BackendType.POSTGRES)
    (hpool : b.hasPool = true)
    (hdrv : driver cid calls = DriverOutcome.fail true)
    (hr : ¬ retryCount < MAX_RETRIES) :
    ∃ rest, (queryModel driver now (fuel + 1) retryCount calls s).trace =
      QueryEvent.attempt cid :: rest := by
  simp [queryModel, hcur, hb, hty, hpool, hdrv, hr]
  split
  · split
    · unfold queryModel.queryMockFallback
      repeat' split
      all_goals exact ⟨_, rfl⟩
    · exact ⟨_, rfl⟩
  · unfold queryModel.queryMockFallback
    repeat' split
    all_goals exact ⟨_, rfl⟩

/-- C3 (amended): against a store whose driver always fails with a
transient error, query makes four attempts on that store in one leg (the
initial attempt plus MAX_RETRIES retries), waiting RETRY_DELAY_MS times 2
to the attempt index between consecutive attempts, before the leg ends in
re-selection, stub fallback or a surfaced failure. -/
theorem queryTransientLegFourAttempts (driver : String → Nat → DriverOutcome)
    (now fuel calls : Nat) (s : Registry) (cid : String) (b : BackendInstance)
    (hcur : s.currentBackendId = some cid)
    (hb : getBackend s cid = some b)
    (hty : b.config.type = BackendType.POSTGRES)
    (hpool : b.hasPool = true)
    (hdrv : ∀ k, driver cid k = DriverOutcome.fail true) :
    ∃ rest, (queryModel driver now (fuel + 4) 0 calls s).trace =
      QueryEvent.attempt cid :: QueryEvent.delay (RETRY_DELAY_MS * 2 ^ 0) ::
      QueryEvent.attempt cid :: QueryEvent.delay (RETRY_DELAY_MS * 2 ^ 1) ::
      QueryEvent.attempt cid :: QueryEvent.delay (RETRY_DELAY_MS * 2 ^ 2) ::
      QueryEvent.attempt cid :: rest := by
  have e1 : fuel + 4 = (fuel + 3) + 1 := rfl
  have e2 : fuel + 3 = (fuel + 2) + 1 := rfl
  have e3 : fuel + 2 = (fuel + 1) + 1 := rfl
  set s1 := updateBackendStatus cid BackendStatus.DEGRADED (markUsed now cid s) with hs1
  set s2 := updateBackendStatus cid BackendStatus.DEGRADED (markUsed now cid s1) with hs2
  set s3 := updateBackendStatus cid BackendStatus.DEGRADED (markUsed now cid s2) with hs3
  have hb1 := getBackend_afterDegradedMark now cid s b hb
  have hb2 := getBackend_afterDegradedMark now cid s1 _ hb1
  have hb3 := getBackend_afterDegradedMark now cid s2 _ hb2
  have step1 := queryModel_transient_step driver now (fuel + 3) 0 calls s cid b
    hcur hb hty hpool (hdrv calls) (by decide)
  have step2 := queryModel_transient_step driver now (fuel + 2) 1 (calls + 1) s1 cid _
    hcur hb1 hty hpool (hdrv (calls + 1)) (by decide)
  have step3 := queryModel_transient_step driver now (fuel + 1) 2 (calls + 1 + 1) s2 cid _
    hcur hb2 hty hpool (hdrv (calls + 1 + 1)) (by decide)
  have final := queryModel_noretry_attempt driver now fuel 3 (calls + 1 + 1 + 1) s3 cid _
    hcur hb3 hty hpool (hdrv (calls + 1 + 1 + 1)) (by decide)
  obtain ⟨rest, hrest⟩ := final
  refine ⟨rest, ?_⟩
  rw [e1, step1]
  rw [show (0 : Nat) + 1 = 1 from rfl, e2, step2]
  rw [show (1 : Nat) + 1 = 2 from rfl, e3, step3]
  rw [show (2 : Nat) + 1 = 3 from rfl, hrest]

/-- Witness for C3 (amended) on the concrete single-store fixture. -/
theorem queryTransientLegFourAttempts_witness :
    ∃ rest, (queryModel (fun _ _ => DriverOutcome.fail true) 0 (10 + 4) 0 0
        (singleStoreRegistry
          (mkBackend "primary" BackendType.POSTGRES 1 BackendStatus.ONLINE 0 0 true))).trace =
      QueryEvent.attempt "primary" :: QueryEvent.delay (RETRY_DELAY_MS * 2 ^ 0) ::
      QueryEvent.attempt "primary" :: QueryEvent.delay (RETRY_DELAY_MS * 2 ^ 1) ::
      QueryEvent.attempt "primary" :: QueryEvent.delay (RETRY_DELAY_MS * 2 ^ 2) ::
      QueryEvent.attempt "primary" :: rest :=
  queryTransientLegFourAttempts (fun _ _ => DriverOutcome.fail true) 0 10 0
    (singleStoreRegistry
      (mkBackend "primary" BackendType.POSTGRES 1 BackendStatus.ONLINE 0 0 true))
    "primary" (mkBackend "primary" BackendType.POSTGRES 1 BackendStatus.ONLINE 0 0 true)
    rfl rfl rfl rfl (fun _ => rfl)

/-- Counterexample to C3 as stated: on a single always-transiently-failing
store the leg consists of four attempts, one more than the claimed bound
of three, with the three backoff waits in between. -/
theorem queryTransientLegCounterexample :
    (queryModel (fun _ _ => DriverOutcome.fail true) 0 10 0 0
        (singleStoreRegistry
          (mkBackend "primary" BackendType.POSTGRES 1 BackendStatus.ONLINE 0 0 true))).trace =
      [QueryEvent.attempt "primary", QueryEvent.delay 500,
       QueryEvent.attempt "primary", QueryEvent.delay 1000,
       QueryEvent.attempt "primary", QueryEvent.delay 2000,
       QueryEvent.attempt "primary"] ∧
    countAttempts "primary"
      (queryModel (fun _ _ => DriverOutcome.fail true) 0 10 0 0
        (singleStoreRegistry
          (mkBackend "primary" BackendType.POSTGRES 1 BackendStatus.ONLINE 0 0 true))).trace = 4 ∧
    ¬ countAttempts "primary"
      (queryModel (fun _ _ => DriverOutcome.fail true) 0 10 0 0
        (singleStoreRegistry
          (mkBackend "primary" BackendType.POSTGRES 1 BackendStatus.ONLINE 0 0 true))).trace ≤ 3 := by
  refine ⟨by decide, by decide, ?_⟩
  intro h
  exact absurd h (by decide)

/-! ## C7: switchTo with a failing probe -/

lemma handleHealthCheckFailure_current_of_ne (now : Nat) (id : String) (s : Registry)
    (hne : s.currentBackendId ≠ some id) :
    (handleHealthCheckFailure now id s).currentBackendId = s.currentBackendId := by
  unfold handleHealthCheckFailure
  cases hb : getBackend s id with
  | none => rfl
  | some b =>
    simp only
    split
    · have hbeq : (s.currentBackendId == some id) = false := by
        simp only [beq_eq_false_iff_ne, ne_eq]
        exact hne
      simp only [updateBackendStatus, updateBackend_currentBackendId, hbeq]
      simp
    · split <;> rfl

/-- C7 (amended): if switchTo probes a REAL store, the probe genuinely runs
(no other health check in flight) and fails, then switchTo returns
failure; and provided the probed store was not the currently active one,
activeStoreId is unchanged.  (When the probed store is the active one,
the probe failure may drive it OFFLINE and re-select a new active store
before switchTo returns failure.) -/
theorem switchToFailedProbeKeepsActive (now : Nat) (id : String) (s : Registry)
    (b : BackendInstance)
    (hb : getBackend s id = some b)
    (hen : b.config.enabled = true)
    (hty : b.config.type = BackendType.POSTGRES)
    (hrun : s.healthCheckRunning = false)
    (hcur : s.currentBackendId ≠ some id) :
    (switchBackend now id false s).1 = false ∧
    (switchBackend now id false s).2.currentBackendId = s.currentBackendId := by
  have hchk : checkBackendHealth now id false s = (false, handleHealthCheckFailure now id s) := by
    unfold checkBackendHealth
    simp [hb, hty, hrun]
  unfold switchBackend
  simp only [hb, hen, Bool.not_true, hchk, hty]
  simp [handleHealthCheckFailure_current_of_ne now id s hcur]

/-- The C7 fixture: the probed store is the active one and one failure away
from its OFFLINE threshold, with the mock enabled as the re-selection
target. -/
def switchFixtureRegistry : Registry :=
  { backends :=
      [ mkBackend "primary" BackendType.POSTGRES 1 BackendStatus.DEGRADED 2 0 true,
        mkBackend "mock" BackendType.MOCK 999 BackendStatus.ONLINE 0 999 true ],
    currentBackendId := some "primary", strategy := SelectionStrategy.PRIORITY,
    roundRobinIndex := 0, healthCheckRunning := false, mockFallbackAllowed := true,
    configured := defaultBackends true false true }

/-- Witness for C7 (amended): probing the non-active backup store. -/
def switchBackupFixtureRegistry : Registry :=
  { switchFixtureRegistry with
      backends :=
        [ mkBackend "primary" BackendType.POSTGRES 1 BackendStatus.ONLINE 0 2 true,
          mkBackend "backup" BackendType.POSTGRES 2 BackendStatus.OFFLINE 3 0 true ] }

theorem switchToFailedProbeKeepsActive_witness :
    (switchBackend 1 "backup" false switchBackupFixtureRegistry).1 = false ∧
    (switchBackend 1 "backup" false switchBackupFixtureRegistry).2.currentBackendId =
      switchBackupFixtureRegistry.currentBackendId :=
  switchToFailedProbeKeepsActive 1 "backup" switchBackupFixtureRegistry
    (mkBackend "backup" BackendType.POSTGRES 2 BackendStatus.OFFLINE 3 0 true)
    rfl rfl rfl rfl (by decide)

/-- Counterexample to C7 as stated: probing the ACTIVE store while it is one
failure from its threshold makes the embedded health check drive it
OFFLINE and re-select, so switchTo returns failure but activeStoreId has
changed from primary to mock. -/
theorem switchToClaimCounterexample :
    (switchBackend 1 "primary" false switchFixtureRegistry).1 = false ∧
    switchFixtureRegistry.currentBackendId = some "primary" ∧
    (switchBackend 1 "primary" false switchFixtureRegistry).2.currentBackendId =
      some "mock" := by
  refine ⟨by decide, by decide, by decide⟩

/-! ## Registry events, for the counter and threshold invariants -/

/-- The registry mutations observable at the descriptor level: the two
health-check outcomes (the recordOutcome of the spec), the DEGRADED mark
a failed query applies, a re-selection, an administrative switch with its
probe outcome, enabling or disabling a store, and a strategy change. -/
inductive RegEvent where
  | healthFail (id : String)
  | healthSuccess (id : String)
  | queryFailureMark (id : String)
  | reselect
  | adminSwitch (id : String) (probeHealthy : Bool)
  | setEnabled (id : String) (e : Bool)
  | setStrategy (strat : SelectionStrategy)
deriving DecidableEq, Repr

/-- Apply one event to the registry. -/
def applyRegEvent (now : Nat) (s : Registry) : RegEvent → Registry
  | RegEvent.healthFail id => handleHealthCheckFailure now id s
  | RegEvent.healthSuccess id => healthCheckSuccess id s
  | RegEvent.queryFailureMark id =>
      updateBackendStatus id BackendStatus.DEGRADED (markUsed now id s)
  | RegEvent.reselect => (selectBackend now s).2
  | RegEvent.adminSwitch id h => (switchBackend now id h s).2
  | RegEvent.setEnabled id e => (setBackendEnabled now id e s).2
  | RegEvent.setStrategy strat => setSelectionStrategy now strat s

/-- Apply a sequence of events left to right. -/
def applyRegEvents (now : Nat) (evts : List RegEvent) (s : Registry) : Registry :=
  evts.foldl (applyRegEvent now) s

/-! ## C9: the counter invariant -/

/-- At most one of the two counters of any registered store is nonzero. -/
def countersExclusive (s : Registry) : Prop :=
  ∀ b ∈ s.backends, b.config.failureCount = 0 ∨ b.config.successCount = 0

/-- What claim C9 asserts of a single descriptor: exactly one of the two
counters is nonzero. -/
def exactlyOneCounterNonzero (c : BackendConfig) : Prop :=
  (c.failureCount ≠ 0 ∧ c.successCount = 0) ∨ (c.failureCount = 0 ∧ c.successCount ≠ 0)

lemma countersExclusive_updateBackend (s : Registry) (id : String)
    (f : BackendInstance → BackendInstance) (h : countersExclusive s)
    (hf : ∀ b, ((f b).config.failureCount = b.config.failureCount ∧
                (f b).config.successCount = b.config.successCount) ∨
               (f b).config.failureCount = 0 ∨ (f b).config.successCount = 0) :
    countersExclusive (updateBackend s id f) := by
  intro b hb
  simp only [updateBackend, List.mem_map] at hb
  obtain ⟨a, ha, hba⟩ := hb
  subst hba
  by_cases hid : (a.config.id == id) = true
  · simp only [hid, if_true]
    rcases hf a with ⟨h1, h2⟩ | h3 | h4
    · rw [h1, h2]; exact h a ha
    · exact Or.inl h3
    · exact Or.inr h4
  · simp only [Bool.not_eq_true] at hid
    simp only [hid, Bool.false_eq_true, if_false]
    exact h a ha

lemma countersExclusive_of_backends_eq (s s2 : Registry) (h : countersExclusive s)
    (heq : s2.backends = s.backends) : countersExclusive s2 := by
  intro b hb
  rw [heq] at hb
  exact h b hb

lemma selectBackend_backends (now : Nat) (s : Registry) :
    (selectBackend now s).2.backends = s.backends ∨
    ∃ id, (selectBackend now s).2.backends =
      s.backends.map (fun b => if b.config.id == id then { b with lastUsed := now }
                               else b) := by
  simp only [selectBackend]
  split
  · exact Or.inl rfl
  · split
    · exact Or.inr ⟨_, rfl⟩
    · exact Or.inl rfl

lemma countersExclusive_selectBackend (now : Nat) (s : Registry)
    (h : countersExclusive s) : countersExclusive (selectBackend now s).2 := by
  rcases selectBackend_backends now s with heq | ⟨id, heq⟩
  · exact countersExclusive_of_backends_eq s _ h heq
  · intro b hb
    rw [heq] at hb
    simp only [List.mem_map] at hb
    obtain ⟨a, ha, hba⟩ := hb
    subst hba
    by_cases hid : (a.config.id == id) = true
    · simp only [hid, if_true]; exact h a ha
    · simp only [Bool.not_eq_true] at hid
      simp only [hid, Bool.false_eq_true, if_false]
      exact h a ha

lemma countersExclusive_markUsed (now : Nat) (id : String) (s : Registry)
    (h : countersExclusive s) : countersExclusive (markUsed now id s) :=
  countersExclusive_updateBackend s id _ h (fun _ => Or.inl ⟨rfl, rfl⟩)

lemma countersExclusive_updateBackendStatus (id : String) (st : BackendStatus)
    (s : Registry) (h : countersExclusive s) :
    countersExclusive (updateBackendStatus id st s) :=
  countersExclusive_updateBackend s id _ h (fun _ => Or.inl ⟨rfl, rfl⟩)

lemma countersExclusive_handleHealthCheckFailure (now : Nat) (id : String)
    (s : Registry) (h : countersExclusive s) :
    countersExclusive (handleHealthCheckFailure now id s) := by
  unfold handleHealthCheckFailure
  cases hb : getBackend s id with
  | none => exact h
  | some b =>
    simp only
    have h1 : countersExclusive (updateBackend s id (fun x =>
        { x with config := { x.config with
            failureCount := b.config.failureCount + 1, successCount := 0 } })) :=
      countersExclusive_updateBackend s id _ h (fun _ => Or.inr (Or.inr rfl))
    split
    · split
      · exact countersExclusive_selectBackend now _
          (countersExclusive_updateBackendStatus id BackendStatus.OFFLINE _ h1)
      · exact countersExclusive_updateBackendStatus id BackendStatus.OFFLINE _ h1
    · split
      · exact countersExclusive_updateBackendStatus id BackendStatus.DEGRADED _ h1
      · exact h1

lemma countersExclusive_healthCheckSuccess (id : String) (s : Registry)
    (h : countersExclusive s) : countersExclusive (healthCheckSuccess id s) := by
  unfold healthCheckSuccess
  cases hb : getBackend s id with
  | none => exact h
  | some b =>
    simp only
    have h1 : countersExclusive (updateBackend s id (fun x =>
        { x with config := { x.config with
            successCount := b.config.successCount + 1, failureCount := 0 } })) :=
      countersExclusive_updateBackend s id _ h (fun _ => Or.inr (Or.inl rfl))
    split
    · exact countersExclusive_updateBackendStatus id BackendStatus.ONLINE _ h1
    · exact h1

lemma countersExclusive_checkBackendHealth (now : Nat) (id : String) (healthy : Bool)
    (s : Registry) (h : countersExclusive s) :
    countersExclusive (checkBackendHealth now id healthy s).2 := by
  unfold checkBackendHealth
  cases hb : getBackend s id with
  | none => exact h
  | some b =>
    simp only
    split
    · exact countersExclusive_updateBackendStatus id BackendStatus.ONLINE s h
    · split
      · exact h
      · split
        · exact countersExclusive_healthCheckSuccess id s h
        · exact countersExclusive_handleHealthCheckFailure now id s h

lemma countersExclusive_switchBackend (now : Nat) (id : String) (probe : Bool)
    (s : Registry) (h : countersExclusive s) :
    countersExclusive (switchBackend now id probe s).2 := by
  unfold switchBackend
  cases hb : getBackend s id with
  | none => exact h
  | some b =>
    simp only
    split
    · exact h
    · split
      · exact countersExclusive_checkBackendHealth now id probe s h
      · exact countersExclusive_markUsed now id _
          (countersExclusive_of_backends_eq _ _
            (countersExclusive_checkBackendHealth now id probe s h) rfl)

lemma countersExclusive_setBackendEnabled (now : Nat) (id : String) (e : Bool)
    (s : Registry) (h : countersExclusive s) :
    countersExclusive (setBackendEnabled now id e s).2 := by
  unfold setBackendEnabled
  cases hb : getBackend s id with
  | none => exact h
  | some b =>
    simp only
    have h1 : countersExclusive (updateBackend s id (fun x =>
        { x with config := { x.config with enabled := e } })) :=
      countersExclusive_updateBackend s id _ h (fun _ => Or.inl ⟨rfl, rfl⟩)
    split
    · exact countersExclusive_selectBackend now _ h1
    · exact h1

lemma countersExclusive_setSelectionStrategy (now : Nat) (strat : SelectionStrategy)
    (s : Registry) (h : countersExclusive s) :
    countersExclusive (setSelectionStrategy now strat s) :=
  countersExclusive_selectBackend now _ (countersExclusive_of_backends_eq s _ h rfl)

lemma countersExclusive_applyRegEvent (now : Nat) (s : Registry) (e : RegEvent)
    (h : countersExclusive s) : countersExclusive (applyRegEvent now s e) := by
  cases e with
  | healthFail id => exact countersExclusive_handleHealthCheckFailure now id s h
  | healthSuccess id => exact countersExclusive_healthCheckSuccess id s h
  | queryFailureMark id =>
      exact countersExclusive_updateBackendStatus id BackendStatus.DEGRADED _
        (countersExclusive_markUsed now id s h)
  | reselect => exact countersExclusive_selectBackend now s h
  | adminSwitch id p => exact countersExclusive_switchBackend now id p s h
  | setEnabled id e => exact countersExclusive_setBackendEnabled now id e s h
  | setStrategy strat => exact countersExclusive_setSelectionStrategy now strat s h

lemma countersExclusive_applyRegEvents (now : Nat) (evts : List RegEvent)
    (s : Registry) (h : countersExclusive s) :
    countersExclusive (applyRegEvents now evts s) := by
  induction evts generalizing s with
  | nil => exact h
  | cons e t ih => exact ih _ (countersExclusive_applyRegEvent now s e h)

lemma countersExclusive_initRegistry (pc bc ma : Bool) (strat : SelectionStrategy)
    (mock : Bool) (now : Nat) :
    countersExclusive (initRegistry (defaultBackends pc bc ma) strat mock now) := by
  apply countersExclusive_selectBackend
  intro b hb
  simp only [List.mem_map] at hb
  obtain ⟨c, hc, hbc⟩ := hb
  subst hbc
  have hc2 := List.mem_of_mem_filter hc
  simp only [defaultBackends, List.mem_cons, List.not_mem_nil, or_false] at hc2
  rcases hc2 with rfl | rfl | rfl <;> exact Or.inl rfl

/-- C9 (amended): starting from the default backend configuration, at every
reachable registry state at most one of a descriptor's two counters is
nonzero (the claim's "exactly one" fails already at the initial state,
where the real stores have both counters zero). -/
theorem countersAtMostOneNonzero (pc bc ma : Bool) (strat : SelectionStrategy)
    (mock : Bool) (now now2 : Nat) (evts : List RegEvent) (id : String)
    (b : BackendInstance)
    (hb : getBackend (applyRegEvents now2 evts
        (initRegistry (defaultBackends pc bc ma) strat mock now)) id = some b) :
    b.config.failureCount = 0 ∨ b.config.successCount = 0 := by
  have h := countersExclusive_applyRegEvents now2 evts _
    (countersExclusive_initRegistry pc bc ma strat mock now)
  have hb' : (applyRegEvents now2 evts
      (initRegistry (defaultBackends pc bc ma) strat mock now)).backends.find?
      (fun x => x.config.id == id) = some b := hb
  exact h b (List.mem_of_find?_eq_some hb')

/-- The instance the registry holds for the primary store right after
initialization from the defaults. -/
def defaultPrimaryInstance : BackendInstance :=
  let cfg : BackendConfig :=
    { id := "primary", name := "Primary Neon PostgreSQL", type := BackendType.POSTGRES,
      hasConnectionString := true, priority := 1, status := BackendStatus.UNKNOWN,
      failureCount := 0, maxFailures := 3, recoveryThreshold := 2, successCount := 0,
      healthCheckInterval := 30000, timeout := 10000, enabled := true }
  { config := cfg, hasPool := true, lastUsed := 0 }

/-- Witness for C9 (amended) at the freshly initialized default registry. -/
theorem countersAtMostOneNonzero_witness :
    defaultPrimaryInstance.config.failureCount = 0 ∨
    defaultPrimaryInstance.config.successCount = 0 :=
  countersAtMostOneNonzero true true true SelectionStrategy.PRIORITY true 0 0 []
    "primary" defaultPrimaryInstance (by decide)

/-- Counterexample to C9 as stated: in the freshly initialized default
registry the primary store has both counters zero, so exactly-one-nonzero
fails at a reachable state. -/
theorem countersClaimCounterexample :
    getBackend (initRegistry (defaultBackends true true true)
        SelectionStrategy.PRIORITY true 0) "primary" = some defaultPrimaryInstance ∧
      defaultPrimaryInstance.config.failureCount = 0 ∧
      defaultPrimaryInstance.config.successCount = 0 ∧
      ¬ exactlyOneCounterNonzero defaultPrimaryInstance.config := by
  refine ⟨by decide, by decide, by decide, ?_⟩
  intro h
  rcases h with ⟨h1, _⟩ | ⟨_, h2⟩
  · exact h1 (by decide)
  · exact h2 (by decide)

/-! ## C5: the OFFLINE threshold -/

/-- The effect of handleHealthCheckFailure on the failed store's own
config, as a pure function (the section 4.4 failure transition as the
code implements it). -/
def failUpdate (c : BackendConfig) : BackendConfig :=
  let c1 := { c with failureCount := c.failureCount + 1, successCount := 0 }
  if c.maxFailures ≤ c.failureCount + 1 && c.status != BackendStatus.OFFLINE then
    { c1 with status := BackendStatus.OFFLINE }
  else if c.status == BackendStatus.ONLINE then
    { c1 with status := BackendStatus.DEGRADED }
  else c1

lemma getBackend_config_updateBackend (s : Registry) (id : String)
    (f : BackendInstance → BackendInstance) (cid : String)
    (hcfg : ∀ b, (f b).config = b.config) :
    (getBackend (updateBackend s id f) cid).map (fun b => b.config) =
      (getBackend s cid).map (fun b => b.config) := by
  rw [getBackend_updateBackend s id cid f (fun b => by rw [hcfg b])]
  cases getBackend s cid with
  | none => rfl
  | some b =>
    by_cases h : b.config.id = id
    · simp [h, hcfg b]
    · simp [h]

lemma getBackend_config_selectBackend (now : Nat) (s : Registry) (cid : String) :
    (getBackend (selectBackend now s).2 cid).map (fun b => b.config) =
      (getBackend s cid).map (fun b => b.config) := by
  rcases selectBackend_backends now s with heq | ⟨id, heq⟩
  · have h2 : getBackend (selectBackend now s).2 cid = getBackend s cid := by
      unfold getBackend
      rw [heq]
    rw [h2]
  · have h2 : getBackend (selectBackend now s).2 cid = getBackend (markUsed now id s) cid := by
      unfold getBackend markUsed updateBackend
      rw [heq]
    rw [h2]
    exact getBackend_config_updateBackend s id _ cid (fun _ => rfl)

lemma handleHealthCheckFailure_config_self (now : Nat) (id : String) (s : Registry)
    (b : BackendInstance) (hb : getBackend s id = some b) :
    (getBackend (handleHealthCheckFailure now id s) id).map (fun x => x.config) =
      some (failUpdate b.config) := by
  unfold handleHealthCheckFailure failUpdate
  rw [hb]
  have h1 := getBackend_updateBackend_self s id
    (fun x => { x with config := { x.config with
        failureCount := b.config.failureCount + 1, successCount := 0 } })
    (fun _ => rfl) b hb
  dsimp only
  split
  next hcond =>
    have h2 := getBackend_updateBackendStatus_self id BackendStatus.OFFLINE _ _ h1
    split
    next => rw [getBackend_config_selectBackend, h2]; simp [hcond]
    next => rw [h2]; simp [hcond]
  next hcond =>
    split
    next hon =>
      rw [getBackend_updateBackendStatus_self id BackendStatus.DEGRADED _ _ h1]
      simp [hcond, hon]
    next hon =>
      rw [h1]
      simp [hcond, hon]

lemma handleHealthCheckFailure_config_other (now : Nat) (id : String) (s : Registry)
    (cid : String) (hne : cid ≠ id) :
    (getBackend (handleHealthCheckFailure now id s) cid).map (fun x => x.config) =
      (getBackend s cid).map (fun x => x.config) := by
  unfold handleHealthCheckFailure
  cases hb : getBackend s id with
  | none => rfl
  | some b =>
    dsimp only
    have hupd := getBackend_updateBackend_other s id cid
      (fun x => { x with config := { x.config with
          failureCount := b.config.failureCount + 1, successCount := 0 } })
      (fun _ => rfl) hne
    split
    · split
      · rw [getBackend_config_selectBackend,
          getBackend_updateBackendStatus_other _ _ _ cid hne, hupd]
      · rw [getBackend_updateBackendStatus_other _ _ _ cid hne, hupd]
    · split
      · rw [getBackend_updateBackendStatus_other _ _ _ cid hne, hupd]
      · rw [hupd]

lemma healthCheckSuccess_config_other (id : String) (s : Registry)
    (cid : String) (hne : cid ≠ id) :
    (getBackend (healthCheckSuccess id s) cid).map (fun x => x.config) =
      (getBackend s cid).map (fun x => x.config) := by
  unfold healthCheckSuccess
  cases hb : getBackend s id with
  | none => rfl
  | some b =>
    dsimp only
    have hupd := getBackend_updateBackend_other s id cid
      (fun x => { x with config := { x.config with
          successCount := b.config.successCount + 1, failureCount := 0 } })
      (fun _ => rfl) hne
    split
    · rw [getBackend_updateBackendStatus_other _ _ _ cid hne, hupd]
    · rw [hupd]

/-- Whether an event is one of the two health outcomes of the spec's
recordOutcome. -/
def isOutcomeEvent : RegEvent → Bool
  | RegEvent.healthFail _ => true
  | RegEvent.healthSuccess _ => true
  | _ => false

/-- Whether an event concerns the given store id. -/
def targetsStore (id : String) : RegEvent → Bool
  | RegEvent.healthFail i => i == id
  | RegEvent.healthSuccess i => i == id
  | RegEvent.queryFailureMark i => i == id
  | RegEvent.adminSwitch i _ => i == id
  | _ => false

/-- Running a sequence of health outcomes whose events on a given store
are all failures leaves that store's config at the corresponding iterate
of failUpdate. -/
lemma config_after_fail_events (now : Nat) (evts : List RegEvent) (s : Registry)
    (id : String) (c : BackendConfig)
    (hout : ∀ e ∈ evts, isOutcomeEvent e = true)
    (hfail : ∀ e ∈ evts, targetsStore id e = true → e = RegEvent.healthFail id)
    (hc : (getBackend s id).map (fun x => x.config) = some c) :
    (getBackend (applyRegEvents now evts s) id).map (fun x => x.config) =
      some (failUpdate^[evts.countP (targetsStore id)] c) := by
  induction evts generalizing s c with
  | nil => simpa using hc
  | cons e t ih =>
    have hoe := hout e (List.mem_cons_self e t)
    have hstep : applyRegEvents now (e :: t) s = applyRegEvents now t (applyRegEvent now s e) :=
      rfl
    obtain ⟨b, hb, hbc⟩ : ∃ b, getBackend s id = some b ∧ b.config = c := by
      cases hgb : getBackend s id with
      | none => rw [hgb] at hc; simp at hc
      | some b =>
        rw [hgb] at hc
        simp only [Option.map_some', Option.some.injEq] at hc
        exact ⟨b, rfl, hc⟩
    cases e with
    | healthFail i =>
      by_cases hi : i = id
      · subst hi
        have hcount : (RegEvent.healthFail i :: t).countP (targetsStore i) =
            t.countP (targetsStore i) + 1 := by
          simp [List.countP_cons, targetsStore]
        rw [hstep, hcount]
        have hc2 : (getBackend (applyRegEvent now s (RegEvent.healthFail i)) i).map
            (fun x => x.config) = some (failUpdate c) := by
          show (getBackend (handleHealthCheckFailure now i s) i).map
            (fun x => x.config) = some (failUpdate c)
          rw [handleHealthCheckFailure_config_self now i s b hb, hbc]
        rw [Function.iterate_succ_apply]
        exact ih (applyRegEvent now s (RegEvent.healthFail i)) (failUpdate c)
          (fun e he => hout e (List.mem_cons_of_mem _ he))
          (fun e he ht => hfail e (List.mem_cons_of_mem _ he) ht)
          hc2
      · have hcount : (RegEvent.healthFail i :: t).countP (targetsStore id) =
            t.countP (targetsStore id) := by
          simp [List.countP_cons, targetsStore, hi]
        rw [hstep, hcount]
        have hc2 : (getBackend (applyRegEvent now s (RegEvent.healthFail i)) id).map
            (fun x => x.config) = some c := by
          show (getBackend (handleHealthCheckFailure now i s) id).map
            (fun x => x.config) = some c
          rw [handleHealthCheckFailure_config_other now i s id (fun h => hi h.symm), hc]
        exact ih _ c (fun e he => hout e (List.mem_cons_of_mem _ he))
          (fun e he ht => hfail e (List.mem_cons_of_mem _ he) ht) hc2
    | healthSuccess i =>
      have hi : ¬ i = id := by
        intro hi
        subst hi
        have := hfail (RegEvent.healthSuccess i) (List.mem_cons_self _ _)
          (by simp [targetsStore])
        exact absurd this (by simp)
      have hcount : (RegEvent.healthSuccess i :: t).countP (targetsStore id) =
          t.countP (targetsStore id) := by
        simp [List.countP_cons, targetsStore, hi]
      rw [hstep, hcount]
      have hc2 : (getBackend (applyRegEvent now s (RegEvent.healthSuccess i)) id).map
          (fun x => x.config) = some c := by
        show (getBackend (healthCheckSuccess i s) id).map (fun x => x.config) = some c
        rw [healthCheckSuccess_config_other i s id (fun h => hi h.symm), hc]
      exact ih _ c (fun e he => hout e (List.mem_cons_of_mem _ he))
        (fun e he ht => hfail e (List.mem_cons_of_mem _ he) ht) hc2
    | queryFailureMark i => exact absurd hoe (by simp [isOutcomeEvent])
    | reselect => exact absurd hoe (by simp [isOutcomeEvent])
    | adminSwitch i p => exact absurd hoe (by simp [isOutcomeEvent])
    | setEnabled i e2 => exact absurd hoe (by simp [isOutcomeEvent])
    | setStrategy st => exact absurd hoe (by simp [isOutcomeEvent])

/-- Characterization of repeated failures starting from ONLINE with a clean
failure counter: the counter counts up, and the status is DEGRADED
strictly below the threshold and OFFLINE at it. -/
lemma failUpdate_iterate (c : BackendConfig) (hst : c.status = BackendStatus.ONLINE)
    (hfc : c.failureCount = 0) :
    ∀ k, k ≤ c.maxFailures →
      failUpdate^[k] c =
        { c with failureCount := k,
                 successCount := if k = 0 then c.successCount else 0,
                 status := if k = 0 then BackendStatus.ONLINE
                           else if k < c.maxFailures then BackendStatus.DEGRADED
                           else BackendStatus.OFFLINE } := by
  intro k
  induction k with
  | zero =>
    intro _
    simp only [Function.iterate_zero, id_eq, if_pos rfl]
    obtain ⟨cid, cname, cty, cconn, cpr, cst, cfc, cmax, crec, csc, chi, cto, cen⟩ := c
    simp only at hst hfc
    subst hst hfc
    rfl
  | succ k ihk =>
    intro hk1
    have hk : k ≤ c.maxFailures := Nat.le_of_succ_le hk1
    have hklt : k < c.maxFailures := hk1
    rw [Function.iterate_succ_apply', ihk hk]
    unfold failUpdate
    by_cases hk0 : k = 0
    · subst hk0
      simp only [if_pos rfl]
      by_cases hmax : c.maxFailures ≤ 0 + 1
      · have hm1 : c.maxFailures = 1 := Nat.le_antisymm hmax hklt
        simp [hm1, hfc]
      · have hlt : 1 < c.maxFailures := Nat.lt_of_not_le hmax
        simp [hfc, hmax, Nat.not_le.mpr hlt, hlt]
    · simp only [if_neg hk0]
      by_cases hmax : c.maxFailures ≤ k + 1
      · have : ¬ k + 1 < c.maxFailures := Nat.not_lt.mpr hmax
        simp [hk0, hmax, hklt, this]
      · have hlt : k + 1 < c.maxFailures := Nat.lt_of_not_le hmax
        simp [hk0, hmax, hklt, hlt]

/-- C5: a descriptor that is ONLINE with zero recorded failures reaches
OFFLINE after exactly maxFailures consecutive failure outcomes — never
after fewer — while success outcomes recorded against other descriptors
in between do not interfere. -/
theorem onlineGoesOfflineAtExactThreshold (now : Nat) (evts : List RegEvent)
    (s : Registry) (id : String) (c : BackendConfig)
    (hout : ∀ e ∈ evts, isOutcomeEvent e = true)
    (hc : (getBackend s id).map (fun x => x.config) = some c)
    (hst : c.status = BackendStatus.ONLINE)
    (hfc : c.failureCount = 0)
    (hm : 1 ≤ c.maxFailures)
    (hevts : evts.filter (targetsStore id) =
      List.replicate c.maxFailures (RegEvent.healthFail id)) :
    (getBackend (applyRegEvents now evts s) id).map (fun x => x.config.status) =
      some BackendStatus.OFFLINE ∧
    ∀ p q, evts = p ++ q → p.countP (targetsStore id) < c.maxFailures →
      (getBackend (applyRegEvents now p s) id).map (fun x => x.config.status) ≠
        some BackendStatus.OFFLINE := by
  have hfail : ∀ e ∈ evts, targetsStore id e = true → e = RegEvent.healthFail id := by
    intro e he ht
    have : e ∈ evts.filter (targetsStore id) := List.mem_filter.mpr ⟨he, ht⟩
    rw [hevts] at this
    exact (List.eq_of_mem_replicate this)
  constructor
  · have hcount : evts.countP (targetsStore id) = c.maxFailures := by
      rw [List.countP_eq_length_filter, hevts, List.length_replicate]
    have htrack := config_after_fail_events now evts s id c hout hfail hc
    rw [hcount] at htrack
    rw [failUpdate_iterate c hst hfc c.maxFailures (Nat.le_refl _)] at htrack
    cases hgb : getBackend (applyRegEvents now evts s) id with
    | none => rw [hgb] at htrack; simp at htrack
    | some b =>
      rw [hgb] at htrack
      simp only [Option.map_some', Option.some.injEq] at htrack ⊢
      rw [htrack]
      have h0 : ¬ c.maxFailures = 0 := Nat.pos_iff_ne_zero.mp hm
      simp [h0]
  · intro p q hpq hlt
    have hp_out : ∀ e ∈ p, isOutcomeEvent e = true := by
      intro e he; exact hout e (hpq ▸ List.mem_append_left q he)
    have hp_fail : ∀ e ∈ p, targetsStore id e = true → e = RegEvent.healthFail id := by
      intro e he ht; exact hfail e (hpq ▸ List.mem_append_left q he) ht
    have htrack := config_after_fail_events now p s id c hp_out hp_fail hc
    have hle : p.countP (targetsStore id) ≤ c.maxFailures := Nat.le_of_lt hlt
    rw [failUpdate_iterate c hst hfc _ hle] at htrack
    cases hgb : getBackend (applyRegEvents now p s) id with
    | none => rw [hgb] at htrack; simp at htrack
    | some b =>
      rw [hgb] at htrack
      simp only [Option.map_some', Option.some.injEq] at htrack
      simp only [Option.map_some', ne_eq, Option.some.injEq]
      rw [htrack]
      by_cases hj : p.countP (targetsStore id) = 0
      · simp [hj]
      · simp [hj, hlt]

/-- The C5 fixture: two ONLINE real stores. -/
def twoStoreRegistry : Registry :=
  { backends :=
      [ mkBackend "primary" BackendType.POSTGRES 1 BackendStatus.ONLINE 0 0 true,
        mkBackend "backup" BackendType.POSTGRES 2 BackendStatus.ONLINE 0 1 true ],
    currentBackendId := some "primary", strategy := SelectionStrategy.PRIORITY,
    roundRobinIndex := 0, healthCheckRunning := false, mockFallbackAllowed := false,
    configured := defaultBackends true true false }

/-- Witness for C5: three failures on primary interleaved with successes on
backup drive primary OFFLINE. -/
theorem onlineGoesOfflineAtExactThreshold_witness :
    (getBackend (applyRegEvents 0
        [ RegEvent.healthFail "primary", RegEvent.healthSuccess "backup",
          RegEvent.healthFail "primary", RegEvent.healthSuccess "backup",
          RegEvent.healthFail "primary" ] twoStoreRegistry) "primary").map
      (fun x => x.config.status) = some BackendStatus.OFFLINE :=
  (onlineGoesOfflineAtExactThreshold 0
    [ RegEvent.healthFail "primary", RegEvent.healthSuccess "backup",
      RegEvent.healthFail "primary", RegEvent.healthSuccess "backup",
      RegEvent.healthFail "primary" ] twoStoreRegistry "primary"
    (mkBackend "primary" BackendType.POSTGRES 1 BackendStatus.ONLINE 0 0 true).config
    (by decide) (by decide) rfl rfl (by decide) (by decide)).1

/-! ## Selection keys and the claim-side selection functions -/

/-- Lexicographic order on pairs of naturals, as a boolean. -/
def keyLe (x y : Nat × Nat) : Bool :=
  x.1 < y.1 || (x.1 == y.1 && x.2 ≤ y.2)

/-- First element of the list attaining the minimal key (ties go to the
earlier element). -/
def firstMinBy (f : BackendInstance → Nat × Nat) : List BackendInstance →
    Option BackendInstance
  | [] => none
  | b :: rest =>
    match firstMinBy f rest with
    | none => some b
    | some m => if keyLe (f b) (f m) then some b else some m

/-- The within-partition order claim C1 states: a REAL store before the
DEGRADED_STUB, then lowest priority number. -/
def claimPartitionKey (b : BackendInstance) : Nat × Nat :=
  (if b.config.type == BackendType.MOCK then 1 else 0, b.config.priority)

/-- PRIORITY selection exactly as claim C1 words it: partition the
candidates by status in the order ONLINE, DEGRADED, UNKNOWN, OFFLINE;
within a partition prefer a REAL store over the stub and then the lowest
priority; fall back to the stub only when every partition is empty. -/
def selectByPriorityClaim (backends : List BackendInstance) : Option BackendInstance :=
  match firstMinBy claimPartitionKey
      (backends.filter (fun b => b.config.status == BackendStatus.ONLINE)) with
  | some c => some c
  | none =>
  match firstMinBy claimPartitionKey
      (backends.filter (fun b => b.config.status == BackendStatus.DEGRADED)) with
  | some c => some c
  | none =>
  match firstMinBy claimPartitionKey
      (backends.filter (fun b => b.config.status == BackendStatus.UNKNOWN)) with
  | some c => some c
  | none =>
  match firstMinBy claimPartitionKey
      (backends.filter (fun b => b.config.status == BackendStatus.OFFLINE)) with
  | some c => some c
  | none => (backends.filter (fun b => b.config.type == BackendType.MOCK)).head?

/-- ROUND_ROBIN selection exactly as claim C6 words it: only among stores
that are both ONLINE and REAL, advancing the cursor modulo the
priority-sorted list, with PRIORITY as the fallback exactly when no
ONLINE REAL store exists. -/
def selectByRoundRobinClaim (backends : List BackendInstance) (cursor : Nat) :
    Option BackendInstance × Nat :=
  let onlineReal := backends.filter (fun b =>
    b.config.status == BackendStatus.ONLINE && b.config.type != BackendType.MOCK)
  if onlineReal.isEmpty then (selectByPriorityClaim backends, cursor)
  else
    let sorted := sortByPriority onlineReal
    let idx := (cursor + 1) % sorted.length
    (sorted[idx]?, idx)

/-! ## C6: round-robin -/

lemma insertByPriority_length (b : BackendInstance) (l : List BackendInstance) :
    (insertByPriority b l).length = l.length + 1 := by
  induction l with
  | nil => rfl
  | cons c t ih =>
    unfold insertByPriority
    split
    · simp [ih]
    · simp

lemma sortByPriority_length (l : List BackendInstance) :
    (sortByPriority l).length = l.length := by
  induction l with
  | nil => rfl
  | cons b t ih => simp [sortByPriority, insertByPriority_length, ih]

lemma insertByPriority_perm (b : BackendInstance) (l : List BackendInstance) :
    (insertByPriority b l).Perm (b :: l) := by
  induction l with
  | nil => exact List.Perm.refl _
  | cons c t ih =>
    unfold insertByPriority
    split
    · exact (List.Perm.cons c ih).trans (List.Perm.swap b c t)
    · exact List.Perm.refl _

lemma sortByPriority_perm (l : List BackendInstance) :
    (sortByPriority l).Perm l := by
  induction l with
  | nil => exact List.Perm.refl _
  | cons b t ih =>
    exact (insertByPriority_perm b (sortByPriority t)).trans (List.Perm.cons b ih)

lemma sortByPriority_eq_nil (l : List BackendInstance) :
    sortByPriority l = [] ↔ l = [] := by
  constructor
  · intro h
    have := sortByPriority_length l
    rw [h] at this
    exact (List.length_eq_zero.mp this.symm)
  · intro h; rw [h]; rfl

lemma sortHead_eq_none (l : List BackendInstance) :
    sortHead l = none ↔ l = [] := by
  unfold sortHead
  rw [List.head?_eq_none_iff, sortByPriority_eq_nil]

/-- C6 (amended): the code's round robin draws from the ONLINE stores of
any kind (including the stub) — not only REAL ones — advancing the cursor
modulo the priority-sorted ONLINE list, and falls back to the PRIORITY
algorithm exactly when no ONLINE store of any kind exists. -/
theorem roundRobinAmongOnlineOfAnyKind (l : List BackendInstance) (cursor : Nat)
    (ma : Bool) :
    (l.filter (fun b => b.config.status == BackendStatus.ONLINE) = [] →
      selectByRoundRobin l cursor ma = (selectByPriority l ma, cursor)) ∧
    (l.filter (fun b => b.config.status == BackendStatus.ONLINE) ≠ [] →
      ∃ r, selectByRoundRobin l cursor ma =
          (some r, (cursor + 1) %
            (l.filter (fun b => b.config.status == BackendStatus.ONLINE)).length) ∧
        (sortByPriority (l.filter (fun b => b.config.status == BackendStatus.ONLINE)))[
          (cursor + 1) %
            (l.filter (fun b => b.config.status == BackendStatus.ONLINE)).length]? =
          some r ∧
        r ∈ l ∧ r.config.status = BackendStatus.ONLINE) := by
  constructor
  · intro h
    unfold selectByRoundRobin
    simp [h]
  · intro h
    have hpos : 0 < (l.filter (fun b => b.config.status == BackendStatus.ONLINE)).length :=
      List.length_pos.mpr h
    have hlen := sortByPriority_length
      (l.filter (fun b => b.config.status == BackendStatus.ONLINE))
    have hidx : (cursor + 1) %
        (l.filter (fun b => b.config.status == BackendStatus.ONLINE)).length <
        (sortByPriority (l.filter (fun b =>
          b.config.status == BackendStatus.ONLINE))).length := by
      rw [hlen]
      exact Nat.mod_lt _ hpos
    refine ⟨(sortByPriority (l.filter (fun b =>
        b.config.status == BackendStatus.ONLINE))).get ⟨_, hidx⟩, ?_, ?_, ?_, ?_⟩
    · unfold selectByRoundRobin
      have hne : (l.filter (fun b => b.config.status == BackendStatus.ONLINE)).isEmpty
          = false := by
        simp [List.isEmpty_iff, h]
      simp only [hne, Bool.false_eq_true, if_false, hlen]
      rw [List.getElem?_eq_getElem hidx]
      rfl
    · rw [List.getElem?_eq_getElem hidx]
      rfl
    · have hmem : (sortByPriority (l.filter (fun b =>
          b.config.status == BackendStatus.ONLINE))).get ⟨_, hidx⟩ ∈
          sortByPriority (l.filter (fun b => b.config.status == BackendStatus.ONLINE)) :=
        List.get_mem _ _ hidx
      have hmem2 := (sortByPriority_perm _).mem_iff.mp hmem
      exact List.mem_of_mem_filter hmem2
    · have hmem : (sortByPriority (l.filter (fun b =>
          b.config.status == BackendStatus.ONLINE))).get ⟨_, hidx⟩ ∈
          sortByPriority (l.filter (fun b => b.config.status == BackendStatus.ONLINE)) :=
        List.get_mem _ _ hidx
      have hmem2 := (sortByPriority_perm _).mem_iff.mp hmem
      have := List.of_mem_filter hmem2
      exact eq_of_beq this

/-- Witness for the C6 theorem at a concrete pool with an ONLINE store. -/
theorem roundRobinAmongOnlineOfAnyKind_witness :
    ([mkBackend "backup" BackendType.POSTGRES 2 BackendStatus.ONLINE 0 0 true].filter
        (fun b => b.config.status == BackendStatus.ONLINE) ≠ []) ∧
    (∃ r, selectByRoundRobin
          [mkBackend "backup" BackendType.POSTGRES 2 BackendStatus.ONLINE 0 0 true] 0 true =
        (some r, (0 + 1) %
          ([mkBackend "backup" BackendType.POSTGRES 2 BackendStatus.ONLINE 0 0 true].filter
            (fun b => b.config.status == BackendStatus.ONLINE)).length) ∧
      (sortByPriority
          ([mkBackend "backup" BackendType.POSTGRES 2 BackendStatus.ONLINE 0 0 true].filter
            (fun b => b.config.status == BackendStatus.ONLINE)))[
        (0 + 1) %
          ([mkBackend "backup" BackendType.POSTGRES 2 BackendStatus.ONLINE 0 0 true].filter
            (fun b => b.config.status == BackendStatus.ONLINE)).length]? = some r ∧
      r ∈ [mkBackend "backup" BackendType.POSTGRES 2 BackendStatus.ONLINE 0 0 true] ∧
      r.config.status = BackendStatus.ONLINE) :=
  ⟨by decide,
    (roundRobinAmongOnlineOfAnyKind
      [mkBackend "backup" BackendType.POSTGRES 2 BackendStatus.ONLINE 0 0 true] 0 true).2
      (by decide)⟩

/-- The C6 fixture: an ONLINE mock at priority 1 next to an ONLINE real
store at priority 2, with the cursor at 1. -/
def roundRobinFixture : List BackendInstance :=
  [ mkBackend "mock" BackendType.MOCK 1 BackendStatus.ONLINE 0 999 true,
    mkBackend "backup" BackendType.POSTGRES 2 BackendStatus.ONLINE 0 0 true ]

/-- Counterexample to C6 as stated: with an ONLINE mock in the pool the
code's round robin returns the mock, while the claimed
ONLINE-and-REAL-only round robin would return the real store. -/
theorem roundRobinClaimCounterexample :
    (selectByRoundRobin roundRobinFixture 1 true).1 =
      some (mkBackend "mock" BackendType.MOCK 1 BackendStatus.ONLINE 0 999 true) ∧
    (selectByRoundRobinClaim roundRobinFixture 1).1 =
      some (mkBackend "backup" BackendType.POSTGRES 2 BackendStatus.ONLINE 0 0 true) ∧
    selectByRoundRobin roundRobinFixture 1 true ≠
      selectByRoundRobinClaim roundRobinFixture 1 := by
  refine ⟨by decide, by decide, ?_⟩
  intro h
  exact absurd (congrArg Prod.fst h) (by decide)

/-! ## C1: the PRIORITY selection order -/

/-- The preference tier the code's selectByPriority gives a candidate: an
ONLINE primary PostgreSQL backend first, then other ONLINE backends,
then a DEGRADED primary, other DEGRADED, UNKNOWN, the mock fallback
(when allowed), and OFFLINE last. -/
def selectionTier (ma : Bool) (b : BackendInstance) : Nat :=
  if b.config.status == BackendStatus.ONLINE then
    (if isPrimaryPg b then 0 else 1)
  else if b.config.status == BackendStatus.DEGRADED then
    (if isPrimaryPg b then 2 else 3)
  else if b.config.status == BackendStatus.UNKNOWN then 4
  else if ma && b.config.type == BackendType.MOCK then 5 else 6

/-- The full selection key: tier first, then priority — except in the mock
tier, where the code takes the first configured mock regardless of its
priority. -/
def selectionKey (ma : Bool) (b : BackendInstance) : Nat × Nat :=
  (selectionTier ma b, if selectionTier ma b == 5 then 0 else b.config.priority)

lemma keyLe_iff (x y : Nat × Nat) :
    keyLe x y = true ↔ (x.1 < y.1 ∨ (x.1 = y.1 ∧ x.2 ≤ y.2)) := by
  simp [keyLe]

lemma keyLe_mk_iff (a b c d : Nat) :
    keyLe (a, b) (c, d) = true ↔ (a < c ∨ (a = c ∧ b ≤ d)) := by
  simp [keyLe]

lemma keyLe_mk_false_iff (a b c d : Nat) :
    keyLe (a, b) (c, d) = false ↔ ¬ (a < c ∨ (a = c ∧ b ≤ d)) := by
  rw [← keyLe_mk_iff]
  cases h : keyLe (a, b) (c, d) <;> simp

lemma keyLe_false_iff (x y : Nat × Nat) :
    keyLe x y = false ↔ ¬ (x.1 < y.1 ∨ (x.1 = y.1 ∧ x.2 ≤ y.2)) := by
  rw [← keyLe_iff]
  cases h : keyLe x y <;> simp

lemma keyLe_refl (x : Nat × Nat) : keyLe x x = true := by
  rw [keyLe_iff]; omega

lemma keyLe_trans {x y z : Nat × Nat} (hxy : keyLe x y = true)
    (hyz : keyLe y z = true) : keyLe x z = true := by
  rw [keyLe_iff] at hxy hyz ⊢
  omega

lemma keyLe_total (x y : Nat × Nat) : keyLe x y = true ∨ keyLe y x = true := by
  rw [keyLe_iff, keyLe_iff]
  omega

lemma firstMinBy_eq_none (f : BackendInstance → Nat × Nat) (l : List BackendInstance) :
    firstMinBy f l = none ↔ l = [] := by
  cases l with
  | nil => simp [firstMinBy]
  | cons b t =>
    cases hft : firstMinBy f t with
    | none => simp [firstMinBy, hft]
    | some m =>
      simp only [firstMinBy, hft]
      split <;> simp

lemma firstMinBy_mem (f : BackendInstance → Nat × Nat) (l : List BackendInstance)
    (r : BackendInstance) (h : firstMinBy f l = some r) : r ∈ l := by
  induction l generalizing r with
  | nil => simp [firstMinBy] at h
  | cons b t ih =>
    cases hft : firstMinBy f t with
    | none =>
      simp only [firstMinBy, hft] at h
      simp at h
      subst h
      exact List.mem_cons_self b t
    | some m =>
      simp only [firstMinBy, hft] at h
      split at h
      · simp at h
        subst h
        exact List.mem_cons_self b t
      · simp at h
        subst h
        exact List.mem_cons_of_mem b (ih m hft)

lemma firstMinBy_min (f : BackendInstance → Nat × Nat) (l : List BackendInstance)
    (r : BackendInstance) (h : firstMinBy f l = some r) :
    ∀ b ∈ l, keyLe (f r) (f b) = true := by
  induction l generalizing r with
  | nil => simp [firstMinBy] at h
  | cons b t ih =>
    cases hft : firstMinBy f t with
    | none =>
      simp only [firstMinBy, hft] at h
      simp at h
      subst h
      have ht : t = [] := (firstMinBy_eq_none f t).mp hft
      subst ht
      intro c hc
      simp at hc
      subst hc
      exact keyLe_refl _
    | some m =>
      simp only [firstMinBy, hft] at h
      split at h
      next hbm =>
        simp at h
        subst h
        intro c hc
        rcases List.mem_cons.mp hc with rfl | hct
        · exact keyLe_refl _
        · exact keyLe_trans hbm (ih m hft c hct)
      next hbm =>
        simp at h
        subst h
        intro c hc
        rcases List.mem_cons.mp hc with rfl | hct
        · rcases keyLe_total (f m) (f c) with hh | hh
          · exact hh
          · exact absurd hh hbm
        · exact ih m hft c hct

lemma firstMinBy_decomp (f : BackendInstance → Nat × Nat) (l : List BackendInstance)
    (r : BackendInstance) (h : firstMinBy f l = some r) :
    ∃ pre post, l = pre ++ r :: post ∧ ∀ b ∈ pre, keyLe (f b) (f r) = false := by
  induction l generalizing r with
  | nil => simp [firstMinBy] at h
  | cons b t ih =>
    cases hft : firstMinBy f t with
    | none =>
      simp only [firstMinBy, hft] at h
      simp at h
      subst h
      exact ⟨[], t, rfl, by simp⟩
    | some m =>
      simp only [firstMinBy, hft] at h
      split at h
      next hbm =>
        simp at h
        subst h
        exact ⟨[], t, rfl, by simp⟩
      next hbm =>
        simp at h
        subst h
        obtain ⟨pre, post, hsplit, hpre⟩ := ih m hft
        refine ⟨b :: pre, post, by simp [hsplit], ?_⟩
        intro c hc
        rcases List.mem_cons.mp hc with rfl | hcp
        · simp at hbm
          exact hbm
        · exact hpre c hcp

lemma firstMinBy_eq_some (f : BackendInstance → Nat × Nat)
    (pre post : List BackendInstance) (r : BackendInstance)
    (hmin : ∀ b ∈ pre ++ r :: post, keyLe (f r) (f b) = true)
    (hpre : ∀ b ∈ pre, keyLe (f b) (f r) = false) :
    firstMinBy f (pre ++ r :: post) = some r := by
  induction pre with
  | nil =>
    show firstMinBy f (r :: post) = some r
    cases hft : firstMinBy f post with
    | none => simp [firstMinBy, hft]
    | some m =>
      have hm := firstMinBy_mem f post m hft
      have h2 := hmin m (by simp [hm])
      simp [firstMinBy, hft, h2]
  | cons a pre ih =>
    have ihr := ih (fun b hb => hmin b (List.mem_cons_of_mem a hb))
      (fun b hb => hpre b (List.mem_cons_of_mem a hb))
    have ha := hpre a (List.mem_cons_self a _)
    show firstMinBy f (a :: (pre ++ r :: post)) = some r
    simp only [firstMinBy, ihr]
    simp [ha]

lemma insertByPriority_head (b : BackendInstance) (l : List BackendInstance) :
    (insertByPriority b l).head? = some (match l.head? with
      | none => b
      | some c => if c.config.priority < b.config.priority then c else b) := by
  cases l with
  | nil => rfl
  | cons c t =>
    simp only [insertByPriority]
    split
    next h => simp [h]
    next h => simp [h]

lemma sortHead_eq_firstMinBy (l : List BackendInstance) :
    sortHead l = firstMinBy (fun b => (0, b.config.priority)) l := by
  induction l with
  | nil => rfl
  | cons b t ih =>
    show (insertByPriority b (sortByPriority t)).head? = _
    rw [insertByPriority_head]
    simp only [firstMinBy]
    cases hft : firstMinBy (fun b => (0, b.config.priority)) t with
    | none =>
      have h2 : sortByPriority t = [] := by
        have h3 : sortHead t = none := by rw [ih, hft]
        exact List.head?_eq_none_iff.mp h3
      rw [h2]
      rfl
    | some m =>
      have hm : (sortByPriority t).head? = some m := by
        show sortHead t = some m
        rw [ih, hft]
      rw [hm]
      by_cases hle : b.config.priority ≤ m.config.priority
      · have h1 : ¬ m.config.priority < b.config.priority := Nat.not_lt.mpr hle
        have h2 : keyLe (0, b.config.priority) (0, m.config.priority) = true := by
          rw [keyLe_mk_iff]; omega
        simp [h1, h2]
      · have h1 : m.config.priority < b.config.priority := Nat.lt_of_not_le hle
        have h2 : keyLe (0, b.config.priority) (0, m.config.priority) = false := by
          rw [keyLe_mk_false_iff]; omega
        simp [h1, h2]

lemma filter_decomp (p : BackendInstance → Bool) (l : List BackendInstance) :
    ∀ xs ys r, l.filter p = xs ++ r :: ys →
    ∃ pre post, l = pre ++ r :: post ∧ pre.filter p = xs ∧ post.filter p = ys := by
  induction l with
  | nil =>
    intro xs ys r h
    simp at h
  | cons a t ih =>
    intro xs ys r h
    by_cases hp : p a = true
    · rw [List.filter_cons_of_pos hp] at h
      cases xs with
      | nil =>
        simp only [List.nil_append, List.cons.injEq] at h
        obtain ⟨rfl, hft⟩ := h
        exact ⟨[], t, rfl, rfl, hft⟩
      | cons x xs2 =>
        simp only [List.cons_append, List.cons.injEq] at h
        obtain ⟨rfl, hft⟩ := h
        obtain ⟨pre, post, hsplit, hf1, hf2⟩ := ih xs2 ys r hft
        refine ⟨a :: pre, post, by simp [hsplit], ?_, hf2⟩
        rw [List.filter_cons_of_pos hp, hf1]
    · have hp2 : ¬ p a := by simp [hp]
      rw [List.filter_cons_of_neg hp2] at h
      obtain ⟨pre, post, hsplit, hf1, hf2⟩ := ih xs ys r h
      refine ⟨a :: pre, post, by simp [hsplit], ?_, hf2⟩
      rw [List.filter_cons_of_neg hp2, hf1]

/-- When every candidate satisfying p sits in tier t (for t other than the
mock tier 5) and every other candidate sits strictly later, the head of
the priority-sorted p-filter is the lex-minimal candidate overall. -/
lemma stage_firstMin (ma : Bool) (l : List BackendInstance) (p : BackendInstance → Bool)
    (t : Nat) (ht5 : t ≠ 5) (r : BackendInstance)
    (hhead : sortHead (l.filter p) = some r)
    (htp : ∀ b ∈ l, p b = true → selectionTier ma b = t)
    (htn : ∀ b ∈ l, p b = false → t < selectionTier ma b) :
    firstMinBy (selectionKey ma) l = some r := by
  rw [sortHead_eq_firstMinBy] at hhead
  have hmem := firstMinBy_mem _ _ _ hhead
  have hmin := firstMinBy_min _ _ _ hhead
  obtain ⟨xs, ys, hsplit, hxs⟩ := firstMinBy_decomp _ _ _ hhead
  obtain ⟨pre, post, hl, hfp, hfq⟩ := filter_decomp p l xs ys r hsplit
  have hpr : p r = true := List.of_mem_filter hmem
  have hrl : r ∈ l := by
    rw [hl]; exact List.mem_append_right pre (List.mem_cons_self _ _)
  have htr : selectionTier ma r = t := htp r hrl hpr
  have hkr : selectionKey ma r = (t, r.config.priority) := by
    unfold selectionKey
    rw [htr]
    simp [ht5]
  rw [hl]
  apply firstMinBy_eq_some
  · intro b hb
    have hbl : b ∈ l := by rw [hl]; exact hb
    by_cases hpb : p b = true
    · have htb := htp b hbl hpb
      have hkb : selectionKey ma b = (t, b.config.priority) := by
        unfold selectionKey
        rw [htb]
        simp [ht5]
      have hbf : b ∈ l.filter p := List.mem_filter.mpr ⟨hbl, hpb⟩
      have h2 := hmin b hbf
      rw [keyLe_mk_iff] at h2
      rw [hkr, hkb, keyLe_mk_iff]
      omega
    · have hpbf : p b = false := Bool.eq_false_iff.mpr hpb
      have hlt := htn b hbl hpbf
      rw [hkr, keyLe_iff]
      left
      have hfst : (selectionKey ma b).1 = selectionTier ma b := rfl
      rw [hfst]
      exact hlt
  · intro b hb
    have hbl : b ∈ l := by rw [hl]; exact List.mem_append_left _ hb
    by_cases hpb : p b = true
    · have htb := htp b hbl hpb
      have hkb : selectionKey ma b = (t, b.config.priority) := by
        unfold selectionKey
        rw [htb]
        simp [ht5]
      have hbx : b ∈ xs := by
        rw [← hfp]
        exact List.mem_filter.mpr ⟨hb, hpb⟩
      have hkey := hxs b hbx
      rw [keyLe_mk_false_iff] at hkey
      rw [hkb, hkr, keyLe_mk_false_iff]
      omega
    · have hpbf : p b = false := Bool.eq_false_iff.mpr hpb
      have hlt := htn b hbl hpbf
      rw [hkr]
      have hfst : (selectionKey ma b).1 = selectionTier ma b := rfl
      rw [keyLe_false_iff, hfst]
      intro hcon
      rcases hcon with h1 | ⟨h1, _⟩ <;> omega

/-- The mock-fallback stage: with every candidate OFFLINE and the fallback
allowed, the first MOCK candidate is the lex-minimal one. -/
lemma stage_mock (l : List BackendInstance) (r : BackendInstance)
    (hhead : (l.filter (fun b => b.config.type == BackendType.MOCK)).head? = some r)
    (hoff : ∀ b ∈ l, b.config.status = BackendStatus.OFFLINE) :
    firstMinBy (selectionKey true) l = some r := by
  obtain ⟨ys, hys⟩ : ∃ ys,
      l.filter (fun b => b.config.type == BackendType.MOCK) = r :: ys := by
    cases hf : l.filter (fun b => b.config.type == BackendType.MOCK) with
    | nil => rw [hf] at hhead; simp at hhead
    | cons x tl =>
      rw [hf] at hhead
      simp at hhead
      subst hhead
      exact ⟨tl, rfl⟩
  obtain ⟨pre, post, hl, hfp, _⟩ := filter_decomp _ l [] ys r hys
  have hrf : r ∈ l.filter (fun b => b.config.type == BackendType.MOCK) := by
    rw [hys]; exact List.mem_cons_self _ _
  have hrf2 := List.of_mem_filter hrf
  have hrmock : r.config.type = BackendType.MOCK := eq_of_beq hrf2
  have hrl : r ∈ l := by
    rw [hl]; exact List.mem_append_right _ (List.mem_cons_self _ _)
  have htr : selectionTier true r = 5 := by
    unfold selectionTier
    rw [hoff r hrl]
    simp [hrmock]
  have hkr : selectionKey true r = (5, 0) := by
    unfold selectionKey
    rw [htr]
    simp
  rw [hl]
  apply firstMinBy_eq_some
  · intro b hb
    have hbl : b ∈ l := by rw [hl]; exact hb
    by_cases hmock : b.config.type = BackendType.MOCK
    · have htb : selectionTier true b = 5 := by
        unfold selectionTier
        rw [hoff b hbl]
        simp [hmock]
      have hkb : selectionKey true b = (5, 0) := by
        unfold selectionKey
        rw [htb]
        simp
      rw [hkr, hkb]
      exact keyLe_refl _
    · have htb : selectionTier true b = 6 := by
        unfold selectionTier
        rw [hoff b hbl]
        simp [hmock]
      have hkb : selectionKey true b = (6, b.config.priority) := by
        unfold selectionKey
        rw [htb]
        simp
      rw [hkr, hkb, keyLe_mk_iff]
      omega
  · intro b hb
    have hbl : b ∈ l := by rw [hl]; exact List.mem_append_left _ hb
    by_cases hmock : b.config.type = BackendType.MOCK
    · exfalso
      have hbm : b ∈ pre.filter (fun b => b.config.type == BackendType.MOCK) :=
        List.mem_filter.mpr ⟨hb, by simp [hmock]⟩
      rw [hfp] at hbm
      simp at hbm
    · have htb : selectionTier true b = 6 := by
        unfold selectionTier
        rw [hoff b hbl]
        simp [hmock]
      have hkb : selectionKey true b = (6, b.config.priority) := by
        unfold selectionKey
        rw [htb]
        simp
      rw [hkb, hkr, keyLe_mk_false_iff]
      omega

lemma selectionTier_of_online (ma : Bool) (b : BackendInstance)
    (h : b.config.status = BackendStatus.ONLINE) :
    selectionTier ma b = if isPrimaryPg b then 0 else 1 := by
  simp [selectionTier, h]

lemma selectionTier_of_degraded (ma : Bool) (b : BackendInstance)
    (h : b.config.status = BackendStatus.DEGRADED) :
    selectionTier ma b = if isPrimaryPg b then 2 else 3 := by
  simp [selectionTier, h]

lemma selectionTier_of_unknown (ma : Bool) (b : BackendInstance)
    (h : b.config.status = BackendStatus.UNKNOWN) :
    selectionTier ma b = 4 := by
  simp [selectionTier, h]

lemma selectionTier_of_offline (ma : Bool) (b : BackendInstance)
    (h : b.config.status = BackendStatus.OFFLINE) :
    selectionTier ma b = if ma && b.config.type == BackendType.MOCK then 5 else 6 := by
  simp [selectionTier, h]

/-- C1 (amended): selectByPriority picks the first candidate minimal in the
lexicographic order given by selectionKey: an ONLINE primary-PostgreSQL
store first regardless of priority number, then ONLINE, DEGRADED-primary,
DEGRADED, UNKNOWN by lowest priority, then (when the fallback is allowed)
the first MOCK store regardless of priority, and an OFFLINE store by
priority last; ties go to registration order, and no REAL-over-stub
preference exists inside a partition. -/
theorem selectByPriorityCharacterization (l : List BackendInstance) (ma : Bool) :
    selectByPriority l ma = firstMinBy (selectionKey ma) l := by
  simp only [selectByPriority]
  cases h1 : sortHead ((l.filter
      (fun b => b.config.status == BackendStatus.ONLINE)).filter isPrimaryPg) with
  | some c =>
    refine (stage_firstMin ma l
      (fun a => isPrimaryPg a && (a.config.status == BackendStatus.ONLINE)) 0
      (by omega) c ?_ ?_ ?_).symm
    · rw [← List.filter_filter]
      exact h1
    · intro b _ hpb
      simp only [Bool.and_eq_true] at hpb
      have hst : b.config.status = BackendStatus.ONLINE := eq_of_beq hpb.2
      rw [selectionTier_of_online ma b hst, if_pos hpb.1]
    · intro b _ hpb
      cases hstat : b.config.status with
      | ONLINE =>
        have hprim : isPrimaryPg b = false := by
          simp [hstat] at hpb
          exact hpb
        rw [selectionTier_of_online ma b hstat, if_neg (by simp [hprim])]
        omega
      | DEGRADED => rw [selectionTier_of_degraded ma b hstat]; split <;> omega
      | UNKNOWN => rw [selectionTier_of_unknown ma b hstat]; omega
      | OFFLINE => rw [selectionTier_of_offline ma b hstat]; split <;> omega
  | none =>
  have hF1 : ∀ b ∈ l, b.config.status = BackendStatus.ONLINE → isPrimaryPg b = false := by
    intro b hbl hst
    have hnil : (l.filter (fun b => b.config.status == BackendStatus.ONLINE)).filter
        isPrimaryPg = [] := (sortHead_eq_none _).mp h1
    rw [List.filter_eq_nil_iff] at hnil
    cases hp : isPrimaryPg b
    · rfl
    · exact absurd hp (by
        have := hnil b (List.mem_filter.mpr ⟨hbl, by simp [hst]⟩)
        simp at this
        simp [this])
  cases h2 : sortHead (l.filter (fun b => b.config.status == BackendStatus.ONLINE)) with
  | some c =>
    refine (stage_firstMin ma l
      (fun a => a.config.status == BackendStatus.ONLINE) 1 (by omega) c h2 ?_ ?_).symm
    · intro b hbl hpb
      have hst : b.config.status = BackendStatus.ONLINE := eq_of_beq hpb
      rw [selectionTier_of_online ma b hst, if_neg (by simp [hF1 b hbl hst])]
    · intro b _ hpb
      cases hstat : b.config.status with
      | ONLINE => simp [hstat] at hpb
      | DEGRADED => rw [selectionTier_of_degraded ma b hstat]; split <;> omega
      | UNKNOWN => rw [selectionTier_of_unknown ma b hstat]; omega
      | OFFLINE => rw [selectionTier_of_offline ma b hstat]; split <;> omega
  | none =>
  have hF2 : ∀ b ∈ l, b.config.status ≠ BackendStatus.ONLINE := by
    intro b hbl hst
    have hnil : l.filter (fun b => b.config.status == BackendStatus.ONLINE) = [] :=
      (sortHead_eq_none _).mp h2
    rw [List.filter_eq_nil_iff] at hnil
    exact hnil b hbl (by simp [hst])
  cases h3 : sortHead ((l.filter
      (fun b => b.config.status == BackendStatus.DEGRADED)).filter isPrimaryPg) with
  | some c =>
    refine (stage_firstMin ma l
      (fun a => isPrimaryPg a && (a.config.status == BackendStatus.DEGRADED)) 2
      (by omega) c ?_ ?_ ?_).symm
    · rw [← List.filter_filter]
      exact h3
    · intro b _ hpb
      simp only [Bool.and_eq_true] at hpb
      have hst : b.config.status = BackendStatus.DEGRADED := eq_of_beq hpb.2
      rw [selectionTier_of_degraded ma b hst, if_pos hpb.1]
    · intro b hbl hpb
      cases hstat : b.config.status with
      | ONLINE => exact absurd hstat (hF2 b hbl)
      | DEGRADED =>
        have hprim : isPrimaryPg b = false := by
          simp [hstat] at hpb
          exact hpb
        rw [selectionTier_of_degraded ma b hstat, if_neg (by simp [hprim])]
        omega
      | UNKNOWN => rw [selectionTier_of_unknown ma b hstat]; omega
      | OFFLINE => rw [selectionTier_of_offline ma b hstat]; split <;> omega
  | none =>
  have hF3 : ∀ b ∈ l, b.config.status = BackendStatus.DEGRADED → isPrimaryPg b = false := by
    intro b hbl hst
    have hnil : (l.filter (fun b => b.config.status == BackendStatus.DEGRADED)).filter
        isPrimaryPg = [] := (sortHead_eq_none _).mp h3
    rw [List.filter_eq_nil_iff] at hnil
    cases hp : isPrimaryPg b
    · rfl
    · exact absurd hp (by
        have := hnil b (List.mem_filter.mpr ⟨hbl, by simp [hst]⟩)
        simp at this
        simp [this])
  cases h4 : sortHead (l.filter (fun b => b.config.status == BackendStatus.DEGRADED)) with
  | some c =>
    refine (stage_firstMin ma l
      (fun a => a.config.status == BackendStatus.DEGRADED) 3 (by omega) c h4 ?_ ?_).symm
    · intro b hbl hpb
      have hst : b.config.status = BackendStatus.DEGRADED := eq_of_beq hpb
      rw [selectionTier_of_degraded ma b hst, if_neg (by simp [hF3 b hbl hst])]
    · intro b hbl hpb
      cases hstat : b.config.status with
      | ONLINE => exact absurd hstat (hF2 b hbl)
      | DEGRADED => simp [hstat] at hpb
      | UNKNOWN => rw [selectionTier_of_unknown ma b hstat]; omega
      | OFFLINE => rw [selectionTier_of_offline ma b hstat]; split <;> omega
  | none =>
  have hF4 : ∀ b ∈ l, b.config.status ≠ BackendStatus.DEGRADED := by
    intro b hbl hst
    have hnil : l.filter (fun b => b.config.status == BackendStatus.DEGRADED) = [] :=
      (sortHead_eq_none _).mp h4
    rw [List.filter_eq_nil_iff] at hnil
    exact hnil b hbl (by simp [hst])
  cases h5 : sortHead (l.filter (fun b => b.config.status == BackendStatus.UNKNOWN)) with
  | some c =>
    refine (stage_firstMin ma l
      (fun a => a.config.status == BackendStatus.UNKNOWN) 4 (by omega) c h5 ?_ ?_).symm
    · intro b _ hpb
      exact selectionTier_of_unknown ma b (eq_of_beq hpb)
    · intro b hbl hpb
      cases hstat : b.config.status with
      | ONLINE => exact absurd hstat (hF2 b hbl)
      | DEGRADED => exact absurd hstat (hF4 b hbl)
      | UNKNOWN => simp [hstat] at hpb
      | OFFLINE => rw [selectionTier_of_offline ma b hstat]; split <;> omega
  | none =>
  have hF5 : ∀ b ∈ l, b.config.status ≠ BackendStatus.UNKNOWN := by
    intro b hbl hst
    have hnil : l.filter (fun b => b.config.status == BackendStatus.UNKNOWN) = [] :=
      (sortHead_eq_none _).mp h5
    rw [List.filter_eq_nil_iff] at hnil
    exact hnil b hbl (by simp [hst])
  have hAllOff : ∀ b ∈ l, b.config.status = BackendStatus.OFFLINE := by
    intro b hbl
    cases hstat : b.config.status with
    | ONLINE => exact absurd hstat (hF2 b hbl)
    | DEGRADED => exact absurd hstat (hF4 b hbl)
    | UNKNOWN => exact absurd hstat (hF5 b hbl)
    | OFFLINE => rfl
  cases ma with
  | true =>
    cases h6 : (l.filter (fun b => b.config.type == BackendType.MOCK)).head? with
    | some c =>
      simp only [if_pos rfl, h6]
      exact (stage_mock l c h6 hAllOff).symm
    | none =>
      simp only [if_pos rfl, h6]
      have hF6 : ∀ b ∈ l, b.config.type ≠ BackendType.MOCK := by
        intro b hbl hty
        have hnil : l.filter (fun b => b.config.type == BackendType.MOCK) = [] :=
          List.head?_eq_none_iff.mp h6
        rw [List.filter_eq_nil_iff] at hnil
        exact hnil b hbl (by simp [hty])
      cases h7 : sortHead (l.filter
          (fun b => b.config.status == BackendStatus.OFFLINE)) with
      | some c =>
        refine (stage_firstMin true l
          (fun a => a.config.status == BackendStatus.OFFLINE) 6 (by omega) c h7
          ?_ ?_).symm
        · intro b hbl hpb
          rw [selectionTier_of_offline true b (eq_of_beq hpb)]
          simp [hF6 b hbl]
        · intro b hbl hpb
          simp [hAllOff b hbl] at hpb
      | none =>
        have hnil : l = [] := by
          cases l with
          | nil => rfl
          | cons b t =>
            exfalso
            have hb := hAllOff b (List.mem_cons_self b t)
            have hnil2 : (b :: t).filter
                (fun b => b.config.status == BackendStatus.OFFLINE) = [] :=
              (sortHead_eq_none _).mp h7
            rw [List.filter_eq_nil_iff] at hnil2
            exact hnil2 b (List.mem_cons_self b t) (by simp [hb])
        subst hnil
        rfl
  | false =>
    simp only [Bool.false_eq_true, if_false]
    cases h7 : sortHead (l.filter
        (fun b => b.config.status == BackendStatus.OFFLINE)) with
    | some c =>
      refine (stage_firstMin false l
        (fun a => a.config.status == BackendStatus.OFFLINE) 6 (by omega) c h7
        ?_ ?_).symm
      · intro b _ hpb
        rw [selectionTier_of_offline false b (eq_of_beq hpb)]
        simp
      · intro b hbl hpb
        simp [hAllOff b hbl] at hpb
    | none =>
      have hnil : l = [] := by
        cases l with
        | nil => rfl
        | cons b t =>
          exfalso
          have hb := hAllOff b (List.mem_cons_self b t)
          have hnil2 : (b :: t).filter
              (fun b => b.config.status == BackendStatus.OFFLINE) = [] :=
            (sortHead_eq_none _).mp h7
          rw [List.filter_eq_nil_iff] at hnil2
          exact hnil2 b (List.mem_cons_self b t) (by simp [hb])
      subst hnil
      rfl

/-- The C1 fixture: two ONLINE REAL stores where the one named primary has
the numerically larger priority. -/
def priorityClaimFixture : List BackendInstance :=
  [ mkBackend "backup" BackendType.POSTGRES 1 BackendStatus.ONLINE 0 0 true,
    mkBackend "primary" BackendType.POSTGRES 5 BackendStatus.ONLINE 0 0 true ]

/-- Counterexample to C1 as stated: within the ONLINE partition the code
prefers the store named primary over the lower-priority store, while the
claim's partition rule demands the lowest priority number. -/
theorem selectByPriorityClaimCounterexample :
    selectByPriority priorityClaimFixture true =
      some (mkBackend "primary" BackendType.POSTGRES 5 BackendStatus.ONLINE 0 0 true) ∧
    selectByPriorityClaim priorityClaimFixture =
      some (mkBackend "backup" BackendType.POSTGRES 1 BackendStatus.ONLINE 0 0 true) ∧
    selectByPriority priorityClaimFixture true ≠
      selectByPriorityClaim priorityClaimFixture := by
  refine ⟨by decide, by decide, ?_⟩
  intro h
  exact absurd h (by decide)

/-! ## C10: determinism of the degraded stub -/

/-- C10: two consecutive read-all-employees queries against the mock
database, with no write in between, return identical results, and the
read leaves the stub's tables untouched. -/
theorem stubReadAllDeterministic (s : MockState) :
    (mockDbQuery readAllEmployees (mockDbQuery readAllEmployees s).2).1 =
      (mockDbQuery readAllEmployees s).1 ∧
    (mockDbQuery readAllEmployees s).2 = s := by
  constructor <;> rfl

end BackendReg
